import Mathlib

/-!
# Kernel-ABI marshalling of a FUSE userspace driver

A shallow embedding of `fuseops/filemode.go`, `fuseops/conv.go` and
`fuseutil/dirent.go`.

* Machine integers are natural numbers; where the source arithmetic can wrap,
  the reduction modulo `2 ^ 64` or `2 ^ 32` is written out.
* A `time.Time` is the integer count of nanoseconds since the Unix epoch, a
  `time.Duration` a signed 64-bit count of nanoseconds.
* Every `time.Now()` of the source is an explicit clock reading.
* A byte buffer is a list of bytes; a pointer parameter that the source fills
  in is a value passed in and returned.
-/

namespace Fuse

/-! ## `syscall` constants -/

def S_IFMT : Nat := 0xf000
def S_IFSOCK : Nat := 0xc000
def S_IFLNK : Nat := 0xa000
def S_IFREG : Nat := 0x8000
def S_IFBLK : Nat := 0x6000
def S_IFDIR : Nat := 0x4000
def S_IFCHR : Nat := 0x2000
def S_IFIFO : Nat := 0x1000
def S_ISUID : Nat := 0x800
def S_ISGID : Nat := 0x400
def S_ISVTX : Nat := 0x200

def syscall.DT_FIFO : Nat := 1
def syscall.DT_CHR : Nat := 2
def syscall.DT_DIR : Nat := 4
def syscall.DT_BLK : Nat := 6
def syscall.DT_REG : Nat := 8
def syscall.DT_LNK : Nat := 10
def syscall.DT_SOCK : Nat := 12

/-! ## `os.FileMode` bits -/

def ModeDir : Nat := 2 ^ 31
def ModeAppend : Nat := 2 ^ 30
def ModeExclusive : Nat := 2 ^ 29
def ModeTemporary : Nat := 2 ^ 28
def ModeSymlink : Nat := 2 ^ 27
def ModeDevice : Nat := 2 ^ 26
def ModeNamedPipe : Nat := 2 ^ 25
def ModeSocket : Nat := 2 ^ 24
def ModeSetuid : Nat := 2 ^ 23
def ModeSetgid : Nat := 2 ^ 22
def ModeCharDevice : Nat := 2 ^ 21
def ModeSticky : Nat := 2 ^ 20
def ModeIrregular : Nat := 2 ^ 19

/-! ## `fuseops/filemode.go` -/

/-- ConvertFileMode: the `os.FileMode` for a Linux mode word. -/
def ConvertFileMode (unixMode : Nat) : Nat :=
  let mode := unixMode &&& 0o777
  let mode :=
    if unixMode &&& S_IFMT = S_IFREG then mode
    else if unixMode &&& S_IFMT = S_IFDIR then mode ||| ModeDir
    else if unixMode &&& S_IFMT = S_IFCHR then mode ||| (ModeCharDevice ||| ModeDevice)
    else if unixMode &&& S_IFMT = S_IFBLK then mode ||| ModeDevice
    else if unixMode &&& S_IFMT = S_IFIFO then mode ||| ModeNamedPipe
    else if unixMode &&& S_IFMT = S_IFLNK then mode ||| ModeSymlink
    else if unixMode &&& S_IFMT = S_IFSOCK then mode ||| ModeSocket
    else mode ||| ModeDevice
  let mode := if unixMode &&& S_ISUID ≠ 0 then mode ||| ModeSetuid else mode
  let mode := if unixMode &&& S_ISGID ≠ 0 then mode ||| ModeSetgid else mode
  let mode := if unixMode &&& S_ISVTX ≠ 0 then mode ||| ModeSticky else mode
  mode

/-- ConvertGoMode: the Linux mode word for an `os.FileMode`. The `default`
case of the source's tagless `switch` is taken when no other case matches. -/
def ConvertGoMode (inMode : Nat) : Nat :=
  let outMode := inMode &&& 0o777
  let outMode :=
    if inMode &&& ModeDir ≠ 0 then outMode ||| S_IFDIR
    else if inMode &&& ModeDevice ≠ 0 then
      if inMode &&& ModeCharDevice ≠ 0 then outMode ||| S_IFCHR
      else outMode ||| S_IFBLK
    else if inMode &&& ModeNamedPipe ≠ 0 then outMode ||| S_IFIFO
    else if inMode &&& ModeSymlink ≠ 0 then outMode ||| S_IFLNK
    else if inMode &&& ModeSocket ≠ 0 then outMode ||| S_IFSOCK
    else outMode ||| S_IFREG
  let outMode := if inMode &&& ModeSetuid ≠ 0 then outMode ||| S_ISUID else outMode
  let outMode := if inMode &&& ModeSetgid ≠ 0 then outMode ||| S_ISGID else outMode
  let outMode := if inMode &&& ModeSticky ≠ 0 then outMode ||| S_ISVTX else outMode
  outMode

/-- The six `os.FileMode` flags that `ConvertFileMode` can set for a file type. -/
def goTypeBits : Nat :=
  ModeDir ||| ModeDevice ||| ModeCharDevice ||| ModeNamedPipe ||| ModeSymlink ||| ModeSocket

/-- The legal host modes of the specification: no bit outside the permission
bits, `ModeSetuid`, `ModeSetgid`, `ModeSticky` and the type flags, and the type
flags in one of the seven configurations that stand for a file type. -/
def LegalGoMode (m : Nat) : Prop :=
  m &&& (goTypeBits ||| ModeSetuid ||| ModeSetgid ||| ModeSticky ||| 0o777) = m ∧
  (m &&& goTypeBits = 0 ∨ m &&& goTypeBits = ModeDir ∨ m &&& goTypeBits = ModeDevice ∨
    m &&& goTypeBits = ModeDevice ||| ModeCharDevice ∨ m &&& goTypeBits = ModeNamedPipe ∨
    m &&& goTypeBits = ModeSymlink ∨ m &&& goTypeBits = ModeSocket)

instance (m : Nat) : Decidable (LegalGoMode m) := by
  unfold LegalGoMode; infer_instance

/-! ## `time` -/

/-- A signed 64-bit integer holding `x` after wrap-around. -/
def wrapInt64 (x : Int) : Int := (x + 2 ^ 63) % 2 ^ 64 - 2 ^ 63

/-- The `uint64(x)` conversion of a signed integer. -/
def toUint64 (x : Int) : Nat := (x % 2 ^ 64).toNat

/-- The `uint32(x)` conversion of a signed integer. -/
def toUint32 (x : Int) : Nat := (x % 2 ^ 32).toNat

def minDuration : Int := -(2 ^ 63)
def maxDuration : Int := 2 ^ 63 - 1
def Nanosecond : Int := 1
def Second : Int := 1000000000

/-- One hundred years of 366 days, in nanoseconds. -/
def hundredYears : Int := 100 * 366 * 24 * 3600 * 1000000000

/-- The method `Time.UnixNano`: nanoseconds since the epoch as an `int64`. -/
def UnixNano (t : Int) : Int := wrapInt64 t

/-- The method `Time.Sub`: the duration `t - u` of two instants on one time
line, saturated at the least and greatest `time.Duration`. -/
def Sub (t u : Int) : Int :=
  if t - u < minDuration then minDuration
  else if maxDuration < t - u then maxDuration
  else t - u

/-- The two successive readings of `time.Now()` that one call of
`ConvertChildInodeEntry` takes. -/
structure Clock where
  entryNow : Int
  attrNow : Int
  deriving DecidableEq, Repr

/-! ## `fuseops/conv.go` -/

/-- Modelled from the spec: the type `fuseops.InodeAttributes` is not among the
sources; these are the fields `ConvertAttributes` reads. -/
structure InodeAttributes where
  Size : Nat
  Nlink : Nat
  Mode : Nat
  Rdev : Nat
  Atime : Int
  Mtime : Int
  Ctime : Int
  Crtime : Int
  Uid : Nat
  Gid : Nat
  deriving DecidableEq, Repr

/-- Modelled from the spec: the type `fuseops.ChildInodeEntry` is not among the
sources; these are the fields `ConvertChildInodeEntry` reads. -/
structure ChildInodeEntry where
  Child : Nat
  Generation : Nat
  Attributes : InodeAttributes
  AttributesExpiration : Int
  EntryExpiration : Int
  deriving DecidableEq, Repr

/-- Modelled from the spec: the type `fusekernel.Attr` is not among the sources.
The attribute record: inode id, size, derived block count, three timestamp
pairs and an optional fourth (creation) pair, mode bits, link count, uid, gid,
device number, block size and a padding word. -/
structure Attr where
  Ino : Nat
  Size : Nat
  Blocks : Nat
  Atime : Nat
  Mtime : Nat
  Ctime : Nat
  Crtime : Nat
  AtimeNsec : Nat
  MtimeNsec : Nat
  CtimeNsec : Nat
  CrtimeNsec : Nat
  Mode : Nat
  Nlink : Nat
  Uid : Nat
  Gid : Nat
  Rdev : Nat
  Blksize : Nat
  padding : Nat
  deriving DecidableEq, Repr

/-- Modelled from the spec: the method `fusekernel.Attr.SetCrtime` is not among
the sources. It records the creation timestamp pair in the record's own slot
and touches no other field. -/
def Attr.SetCrtime (a : Attr) (s ns : Nat) : Attr :=
  { a with Crtime := s, CrtimeNsec := ns }

/-- Modelled from the spec: the type `fusekernel.EntryOut` is not among the
sources. The entry record: child id, generation, two validity windows as
(seconds, nanoseconds) pairs and the embedded attribute record. -/
structure EntryOut where
  Nodeid : Nat
  Generation : Nat
  EntryValid : Nat
  AttrValid : Nat
  EntryValidNsec : Nat
  AttrValidNsec : Nat
  Attr : Attr
  deriving DecidableEq, Repr

/-- ConvertTime: seconds and nanoseconds of an absolute time. The source's
`/` and `%` on `int64` truncate toward zero. -/
def ConvertTime (t : Int) : Nat × Nat :=
  let totalNano := UnixNano t
  let secs := toUint64 (Int.tdiv totalNano 1000000000)
  let nsec := toUint32 (Int.tmod totalNano 1000000000)
  (secs, nsec)

/-- ConvertAttributes: fills the attribute record `out` from `in`. Fields the
source does not assign keep the value they have in `out`. -/
def ConvertAttributes (inodeID : Nat) (inp : InodeAttributes) (out : Attr) : Attr :=
  let out := { out with Ino := inodeID % 2 ^ 64 }
  let out := { out with Size := inp.Size }
  let out := { out with Atime := (ConvertTime inp.Atime).1, AtimeNsec := (ConvertTime inp.Atime).2 }
  let out := { out with Mtime := (ConvertTime inp.Mtime).1, MtimeNsec := (ConvertTime inp.Mtime).2 }
  let out := { out with Ctime := (ConvertTime inp.Ctime).1, CtimeNsec := (ConvertTime inp.Ctime).2 }
  let out := out.SetCrtime (ConvertTime inp.Crtime).1 (ConvertTime inp.Crtime).2
  let out := { out with Nlink := inp.Nlink }
  let out := { out with Uid := inp.Uid }
  let out := { out with Gid := inp.Gid }
  let out := { out with Blocks := (((inp.Size + 512) % 2 ^ 64 + 2 ^ 64 - 1) % 2 ^ 64) / 512 }
  let out := { out with Mode := ConvertGoMode inp.Mode }
  if out.Mode &&& (S_IFCHR ||| S_IFBLK) ≠ 0 then
    { out with Rdev := inp.Rdev }
  else
    out

/-- ConvertExpirationTime: an absolute expiration as a duration from the clock
reading `now`. Both results start at zero and are assigned only when the
duration is positive. -/
def ConvertExpirationTime (now t : Int) : Nat × Nat :=
  let d := Sub t now
  if d > 0 then
    (toUint64 (Int.tdiv d Second), toUint32 (Int.tdiv (Int.tmod d Second) Nanosecond))
  else
    (0, 0)

/-- ConvertChildInodeEntry: fills the entry record `out` from `in`. -/
def ConvertChildInodeEntry (clock : Clock) (inp : ChildInodeEntry) (out : EntryOut) : EntryOut :=
  let out := { out with Nodeid := inp.Child % 2 ^ 64 }
  let out := { out with Generation := inp.Generation % 2 ^ 64 }
  let out := { out with
    EntryValid := (ConvertExpirationTime clock.entryNow inp.EntryExpiration).1,
    EntryValidNsec := (ConvertExpirationTime clock.entryNow inp.EntryExpiration).2 }
  let out := { out with
    AttrValid := (ConvertExpirationTime clock.attrNow inp.AttributesExpiration).1,
    AttrValidNsec := (ConvertExpirationTime clock.attrNow inp.AttributesExpiration).2 }
  { out with Attr := ConvertAttributes inp.Child inp.Attributes out.Attr }

/-! ## `fuseutil/dirent.go` -/

def DT_Unknown : Nat := 0
def DT_Socket : Nat := syscall.DT_SOCK
def DT_Link : Nat := syscall.DT_LNK
def DT_File : Nat := syscall.DT_REG
def DT_Block : Nat := syscall.DT_BLK
def DT_Directory : Nat := syscall.DT_DIR
def DT_Char : Nat := syscall.DT_CHR
def DT_FIFO : Nat := syscall.DT_FIFO

/-- Dirent: an entry within a directory file. `Name` is the byte sequence of
the source's string; the field `Type` is written `Type_`. -/
structure Dirent where
  Offset : Nat
  Inode : Nat
  Name : List Nat
  Type_ : Nat
  deriving DecidableEq, Repr

/-- The `w` bytes of `x` in host order, least significant byte first. -/
def leBytes : Nat → Nat → List Nat
  | 0, _ => []
  | w + 1, x => x % 256 :: leBytes w (x / 256)

/-- The number whose host-order bytes are `bs`. -/
def leValue : List Nat → Nat
  | [] => 0
  | b :: bs => b + 256 * leValue bs

/-- Modelled from the spec: the memory layout of `fusekernel.EntryOut` is not
among the sources. `size` is `unsafe.Sizeof(fusekernel.EntryOut{})`, `load`
reads the record that `size` bytes of memory hold and `store` gives the bytes
of a record. -/
structure EntryOutLayout where
  size : Nat
  load : List Nat → EntryOut
  store : EntryOut → List Nat

/-- Modelled from the spec: one layout of the entry record, fields in
declaration order and host byte order, with no slot for a creation time:
four 8-byte words, two 4-byte words, then the attribute record of six 8-byte
and ten 4-byte words, 128 bytes in all. -/
def linuxEntryOut : EntryOutLayout where
  size := 128
  load := fun b =>
    { Nodeid := leValue (b.take 8)
      Generation := leValue ((b.drop 8).take 8)
      EntryValid := leValue ((b.drop 16).take 8)
      AttrValid := leValue ((b.drop 24).take 8)
      EntryValidNsec := leValue ((b.drop 32).take 4)
      AttrValidNsec := leValue ((b.drop 36).take 4)
      Attr :=
        { Ino := leValue ((b.drop 40).take 8)
          Size := leValue ((b.drop 48).take 8)
          Blocks := leValue ((b.drop 56).take 8)
          Atime := leValue ((b.drop 64).take 8)
          Mtime := leValue ((b.drop 72).take 8)
          Ctime := leValue ((b.drop 80).take 8)
          Crtime := 0
          AtimeNsec := leValue ((b.drop 88).take 4)
          MtimeNsec := leValue ((b.drop 92).take 4)
          CtimeNsec := leValue ((b.drop 96).take 4)
          CrtimeNsec := 0
          Mode := leValue ((b.drop 100).take 4)
          Nlink := leValue ((b.drop 104).take 4)
          Uid := leValue ((b.drop 108).take 4)
          Gid := leValue ((b.drop 112).take 4)
          Rdev := leValue ((b.drop 116).take 4)
          Blksize := leValue ((b.drop 120).take 4)
          padding := leValue ((b.drop 124).take 4) } }
  store := fun o =>
    leBytes 8 o.Nodeid ++ leBytes 8 o.Generation ++ leBytes 8 o.EntryValid ++
    leBytes 8 o.AttrValid ++ leBytes 4 o.EntryValidNsec ++ leBytes 4 o.AttrValidNsec ++
    leBytes 8 o.Attr.Ino ++ leBytes 8 o.Attr.Size ++ leBytes 8 o.Attr.Blocks ++
    leBytes 8 o.Attr.Atime ++ leBytes 8 o.Attr.Mtime ++ leBytes 8 o.Attr.Ctime ++
    leBytes 4 o.Attr.AtimeNsec ++ leBytes 4 o.Attr.MtimeNsec ++ leBytes 4 o.Attr.CtimeNsec ++
    leBytes 4 o.Attr.Mode ++ leBytes 4 o.Attr.Nlink ++ leBytes 4 o.Attr.Uid ++
    leBytes 4 o.Attr.Gid ++ leBytes 4 o.Attr.Rdev ++ leBytes 4 o.Attr.Blksize ++
    leBytes 4 o.Attr.padding

/-- The builtin `copy(buf[n:], src)`: the number of bytes copied, which is the
shorter of the two lengths, and the buffer after the copy. -/
def copyAt (buf : List Nat) (n : Nat) (src : List Nat) : Nat × List Nat :=
  let k := min (buf.length - n) src.length
  (k, buf.take n ++ src.take k ++ buf.drop (n + k))

def direntAlignment : Nat := 8
def direntSize : Nat := 8 + 8 + 4 + 4

/-- The bytes of the local `fuse_dirent` header value `de`. -/
def direntHeader (d : Dirent) : List Nat :=
  leBytes 8 (d.Inode % 2 ^ 64) ++ leBytes 8 (d.Offset % 2 ^ 64) ++
  leBytes 4 (d.Name.length % 2 ^ 32) ++ leBytes 4 (d.Type_ % 2 ^ 32)

/-- WriteDirentPlus: the returned count `n` and the buffer after the call. With
an entry, the record at the head of the buffer is viewed through the layout,
filled in by `ConvertChildInodeEntry` and left in place. -/
def WriteDirentPlus (L : EntryOutLayout) (clock : Clock) (buf : List Nat)
    (e : Option ChildInodeEntry) (d : Dirent) : Nat × List Nat :=
  let n := 0
  let padLen :=
    if d.Name.length % direntAlignment ≠ 0 then
      direntAlignment - d.Name.length % direntAlignment
    else 0
  let totalLen := direntSize + d.Name.length + padLen
  let totalLen := if e.isSome then totalLen + L.size else totalLen
  if totalLen > buf.length then (n, buf)
  else
    let s1 : Nat × List Nat :=
      match e with
      | some e =>
        (n + L.size,
          buf.take n ++
            L.store (ConvertChildInodeEntry clock e (L.load ((buf.drop n).take L.size))) ++
            buf.drop (n + L.size))
      | none => (n, buf)
    let c2 := copyAt s1.2 s1.1 (direntHeader d)
    let s2 : Nat × List Nat := (s1.1 + c2.1, c2.2)
    let c3 := copyAt s2.2 s2.1 d.Name
    let s3 : Nat × List Nat := (s2.1 + c3.1, c3.2)
    if padLen ≠ 0 then
      let c4 := copyAt s3.2 s3.1 ((List.replicate direntAlignment 0).take padLen)
      (s3.1 + c4.1, c4.2)
    else s3

/-- WriteDirent: `WriteDirentPlus` without an entry. -/
def WriteDirent (L : EntryOutLayout) (clock : Clock) (buf : List Nat) (d : Dirent) :
    Nat × List Nat :=
  WriteDirentPlus L clock buf none d

/-! ## Bitwise lemmas -/

theorem lor_land_distrib (a b c : Nat) : (a ||| b) &&& c = a &&& c ||| b &&& c := by
  rw [Nat.land_comm, Nat.and_or_distrib_left, Nat.land_comm c a, Nat.land_comm c b]

theorem land_two_pow_cases (m i : Nat) : m &&& 2 ^ i = 0 ∨ m &&& 2 ^ i = 2 ^ i := by
  rw [Nat.and_two_pow]
  cases m.testBit i <;> simp

theorem goMask_perm :
    (0o777 &&& 0o777 : Nat) = 0o777 ∧
    (ModeDir &&& 0o777 : Nat) = 0 ∧
    (ModeSymlink &&& 0o777 : Nat) = 0 ∧
    (ModeDevice &&& 0o777 : Nat) = 0 ∧
    (ModeNamedPipe &&& 0o777 : Nat) = 0 ∧
    (ModeSocket &&& 0o777 : Nat) = 0 ∧
    (ModeSetuid &&& 0o777 : Nat) = 0 ∧
    (ModeSetgid &&& 0o777 : Nat) = 0 ∧
    (ModeCharDevice &&& 0o777 : Nat) = 0 ∧
    (ModeSticky &&& 0o777 : Nat) = 0 := by
  decide

theorem goMask_ModeDir :
    (0o777 &&& ModeDir : Nat) = 0 ∧
    (ModeDir &&& ModeDir : Nat) = ModeDir ∧
    (ModeSymlink &&& ModeDir : Nat) = 0 ∧
    (ModeDevice &&& ModeDir : Nat) = 0 ∧
    (ModeNamedPipe &&& ModeDir : Nat) = 0 ∧
    (ModeSocket &&& ModeDir : Nat) = 0 ∧
    (ModeSetuid &&& ModeDir : Nat) = 0 ∧
    (ModeSetgid &&& ModeDir : Nat) = 0 ∧
    (ModeCharDevice &&& ModeDir : Nat) = 0 ∧
    (ModeSticky &&& ModeDir : Nat) = 0 := by
  decide

theorem goMask_ModeSymlink :
    (0o777 &&& ModeSymlink : Nat) = 0 ∧
    (ModeDir &&& ModeSymlink : Nat) = 0 ∧
    (ModeSymlink &&& ModeSymlink : Nat) = ModeSymlink ∧
    (ModeDevice &&& ModeSymlink : Nat) = 0 ∧
    (ModeNamedPipe &&& ModeSymlink : Nat) = 0 ∧
    (ModeSocket &&& ModeSymlink : Nat) = 0 ∧
    (ModeSetuid &&& ModeSymlink : Nat) = 0 ∧
    (ModeSetgid &&& ModeSymlink : Nat) = 0 ∧
    (ModeCharDevice &&& ModeSymlink : Nat) = 0 ∧
    (ModeSticky &&& ModeSymlink : Nat) = 0 := by
  decide

theorem goMask_ModeDevice :
    (0o777 &&& ModeDevice : Nat) = 0 ∧
    (ModeDir &&& ModeDevice : Nat) = 0 ∧
    (ModeSymlink &&& ModeDevice : Nat) = 0 ∧
    (ModeDevice &&& ModeDevice : Nat) = ModeDevice ∧
    (ModeNamedPipe &&& ModeDevice : Nat) = 0 ∧
    (ModeSocket &&& ModeDevice : Nat) = 0 ∧
    (ModeSetuid &&& ModeDevice : Nat) = 0 ∧
    (ModeSetgid &&& ModeDevice : Nat) = 0 ∧
    (ModeCharDevice &&& ModeDevice : Nat) = 0 ∧
    (ModeSticky &&& ModeDevice : Nat) = 0 := by
  decide

theorem goMask_ModeNamedPipe :
    (0o777 &&& ModeNamedPipe : Nat) = 0 ∧
    (ModeDir &&& ModeNamedPipe : Nat) = 0 ∧
    (ModeSymlink &&& ModeNamedPipe : Nat) = 0 ∧
    (ModeDevice &&& ModeNamedPipe : Nat) = 0 ∧
    (ModeNamedPipe &&& ModeNamedPipe : Nat) = ModeNamedPipe ∧
    (ModeSocket &&& ModeNamedPipe : Nat) = 0 ∧
    (ModeSetuid &&& ModeNamedPipe : Nat) = 0 ∧
    (ModeSetgid &&& ModeNamedPipe : Nat) = 0 ∧
    (ModeCharDevice &&& ModeNamedPipe : Nat) = 0 ∧
    (ModeSticky &&& ModeNamedPipe : Nat) = 0 := by
  decide

theorem goMask_ModeSocket :
    (0o777 &&& ModeSocket : Nat) = 0 ∧
    (ModeDir &&& ModeSocket : Nat) = 0 ∧
    (ModeSymlink &&& ModeSocket : Nat) = 0 ∧
    (ModeDevice &&& ModeSocket : Nat) = 0 ∧
    (ModeNamedPipe &&& ModeSocket : Nat) = 0 ∧
    (ModeSocket &&& ModeSocket : Nat) = ModeSocket ∧
    (ModeSetuid &&& ModeSocket : Nat) = 0 ∧
    (ModeSetgid &&& ModeSocket : Nat) = 0 ∧
    (ModeCharDevice &&& ModeSocket : Nat) = 0 ∧
    (ModeSticky &&& ModeSocket : Nat) = 0 := by
  decide

theorem goMask_ModeSetuid :
    (0o777 &&& ModeSetuid : Nat) = 0 ∧
    (ModeDir &&& ModeSetuid : Nat) = 0 ∧
    (ModeSymlink &&& ModeSetuid : Nat) = 0 ∧
    (ModeDevice &&& ModeSetuid : Nat) = 0 ∧
    (ModeNamedPipe &&& ModeSetuid : Nat) = 0 ∧
    (ModeSocket &&& ModeSetuid : Nat) = 0 ∧
    (ModeSetuid &&& ModeSetuid : Nat) = ModeSetuid ∧
    (ModeSetgid &&& ModeSetuid : Nat) = 0 ∧
    (ModeCharDevice &&& ModeSetuid : Nat) = 0 ∧
    (ModeSticky &&& ModeSetuid : Nat) = 0 := by
  decide

theorem goMask_ModeSetgid :
    (0o777 &&& ModeSetgid : Nat) = 0 ∧
    (ModeDir &&& ModeSetgid : Nat) = 0 ∧
    (ModeSymlink &&& ModeSetgid : Nat) = 0 ∧
    (ModeDevice &&& ModeSetgid : Nat) = 0 ∧
    (ModeNamedPipe &&& ModeSetgid : Nat) = 0 ∧
    (ModeSocket &&& ModeSetgid : Nat) = 0 ∧
    (ModeSetuid &&& ModeSetgid : Nat) = 0 ∧
    (ModeSetgid &&& ModeSetgid : Nat) = ModeSetgid ∧
    (ModeCharDevice &&& ModeSetgid : Nat) = 0 ∧
    (ModeSticky &&& ModeSetgid : Nat) = 0 := by
  decide

theorem goMask_ModeCharDevice :
    (0o777 &&& ModeCharDevice : Nat) = 0 ∧
    (ModeDir &&& ModeCharDevice : Nat) = 0 ∧
    (ModeSymlink &&& ModeCharDevice : Nat) = 0 ∧
    (ModeDevice &&& ModeCharDevice : Nat) = 0 ∧
    (ModeNamedPipe &&& ModeCharDevice : Nat) = 0 ∧
    (ModeSocket &&& ModeCharDevice : Nat) = 0 ∧
    (ModeSetuid &&& ModeCharDevice : Nat) = 0 ∧
    (ModeSetgid &&& ModeCharDevice : Nat) = 0 ∧
    (ModeCharDevice &&& ModeCharDevice : Nat) = ModeCharDevice ∧
    (ModeSticky &&& ModeCharDevice : Nat) = 0 := by
  decide

theorem goMask_ModeSticky :
    (0o777 &&& ModeSticky : Nat) = 0 ∧
    (ModeDir &&& ModeSticky : Nat) = 0 ∧
    (ModeSymlink &&& ModeSticky : Nat) = 0 ∧
    (ModeDevice &&& ModeSticky : Nat) = 0 ∧
    (ModeNamedPipe &&& ModeSticky : Nat) = 0 ∧
    (ModeSocket &&& ModeSticky : Nat) = 0 ∧
    (ModeSetuid &&& ModeSticky : Nat) = 0 ∧
    (ModeSetgid &&& ModeSticky : Nat) = 0 ∧
    (ModeCharDevice &&& ModeSticky : Nat) = 0 ∧
    (ModeSticky &&& ModeSticky : Nat) = ModeSticky := by
  decide

theorem unixMask_perm :
    (0o777 &&& 0o777 : Nat) = 0o777 ∧
    (S_IFSOCK &&& 0o777 : Nat) = 0 ∧
    (S_IFLNK &&& 0o777 : Nat) = 0 ∧
    (S_IFREG &&& 0o777 : Nat) = 0 ∧
    (S_IFBLK &&& 0o777 : Nat) = 0 ∧
    (S_IFDIR &&& 0o777 : Nat) = 0 ∧
    (S_IFCHR &&& 0o777 : Nat) = 0 ∧
    (S_IFIFO &&& 0o777 : Nat) = 0 ∧
    (S_ISUID &&& 0o777 : Nat) = 0 ∧
    (S_ISGID &&& 0o777 : Nat) = 0 ∧
    (S_ISVTX &&& 0o777 : Nat) = 0 := by
  decide

theorem unixMask_S_IFMT :
    (0o777 &&& S_IFMT : Nat) = 0 ∧
    (S_IFSOCK &&& S_IFMT : Nat) = S_IFSOCK ∧
    (S_IFLNK &&& S_IFMT : Nat) = S_IFLNK ∧
    (S_IFREG &&& S_IFMT : Nat) = S_IFREG ∧
    (S_IFBLK &&& S_IFMT : Nat) = S_IFBLK ∧
    (S_IFDIR &&& S_IFMT : Nat) = S_IFDIR ∧
    (S_IFCHR &&& S_IFMT : Nat) = S_IFCHR ∧
    (S_IFIFO &&& S_IFMT : Nat) = S_IFIFO ∧
    (S_ISUID &&& S_IFMT : Nat) = 0 ∧
    (S_ISGID &&& S_IFMT : Nat) = 0 ∧
    (S_ISVTX &&& S_IFMT : Nat) = 0 := by
  decide

theorem unixMask_S_ISUID :
    (0o777 &&& S_ISUID : Nat) = 0 ∧
    (S_IFSOCK &&& S_ISUID : Nat) = 0 ∧
    (S_IFLNK &&& S_ISUID : Nat) = 0 ∧
    (S_IFREG &&& S_ISUID : Nat) = 0 ∧
    (S_IFBLK &&& S_ISUID : Nat) = 0 ∧
    (S_IFDIR &&& S_ISUID : Nat) = 0 ∧
    (S_IFCHR &&& S_ISUID : Nat) = 0 ∧
    (S_IFIFO &&& S_ISUID : Nat) = 0 ∧
    (S_ISUID &&& S_ISUID : Nat) = S_ISUID ∧
    (S_ISGID &&& S_ISUID : Nat) = 0 ∧
    (S_ISVTX &&& S_ISUID : Nat) = 0 := by
  decide

theorem unixMask_S_ISGID :
    (0o777 &&& S_ISGID : Nat) = 0 ∧
    (S_IFSOCK &&& S_ISGID : Nat) = 0 ∧
    (S_IFLNK &&& S_ISGID : Nat) = 0 ∧
    (S_IFREG &&& S_ISGID : Nat) = 0 ∧
    (S_IFBLK &&& S_ISGID : Nat) = 0 ∧
    (S_IFDIR &&& S_ISGID : Nat) = 0 ∧
    (S_IFCHR &&& S_ISGID : Nat) = 0 ∧
    (S_IFIFO &&& S_ISGID : Nat) = 0 ∧
    (S_ISUID &&& S_ISGID : Nat) = 0 ∧
    (S_ISGID &&& S_ISGID : Nat) = S_ISGID ∧
    (S_ISVTX &&& S_ISGID : Nat) = 0 := by
  decide

theorem unixMask_S_ISVTX :
    (0o777 &&& S_ISVTX : Nat) = 0 ∧
    (S_IFSOCK &&& S_ISVTX : Nat) = 0 ∧
    (S_IFLNK &&& S_ISVTX : Nat) = 0 ∧
    (S_IFREG &&& S_ISVTX : Nat) = 0 ∧
    (S_IFBLK &&& S_ISVTX : Nat) = 0 ∧
    (S_IFDIR &&& S_ISVTX : Nat) = 0 ∧
    (S_IFCHR &&& S_ISVTX : Nat) = 0 ∧
    (S_IFIFO &&& S_ISVTX : Nat) = 0 ∧
    (S_ISUID &&& S_ISVTX : Nat) = 0 ∧
    (S_ISGID &&& S_ISVTX : Nat) = 0 ∧
    (S_ISVTX &&& S_ISVTX : Nat) = S_ISVTX := by
  decide

theorem land_S_ISUID_cases (k : Nat) : k &&& S_ISUID = 0 ∨ k &&& S_ISUID = S_ISUID :=
  land_two_pow_cases k 11

theorem land_S_ISGID_cases (k : Nat) : k &&& S_ISGID = 0 ∨ k &&& S_ISGID = S_ISGID :=
  land_two_pow_cases k 10

theorem land_S_ISVTX_cases (k : Nat) : k &&& S_ISVTX = 0 ∨ k &&& S_ISVTX = S_ISVTX :=
  land_two_pow_cases k 9

/-- A kernel mode word without bits outside `S_IFMT | 07777` is the union of
its five fields. -/
theorem unixMode_fields (k : Nat)
    (hk : k &&& (S_IFMT ||| S_ISUID ||| S_ISGID ||| S_ISVTX ||| 0o777) = k) :
    k = k &&& S_IFMT ||| k &&& S_ISUID ||| k &&& S_ISGID ||| k &&& S_ISVTX ||| k &&& 0o777 := by
  simpa only [Nat.and_or_distrib_left] using hk.symm

theorem land_ModeSetuid_cases (m : Nat) : m &&& ModeSetuid = 0 ∨ m &&& ModeSetuid = ModeSetuid :=
  land_two_pow_cases m 23

theorem land_ModeSetgid_cases (m : Nat) : m &&& ModeSetgid = 0 ∨ m &&& ModeSetgid = ModeSetgid :=
  land_two_pow_cases m 22

theorem land_ModeSticky_cases (m : Nat) : m &&& ModeSticky = 0 ∨ m &&& ModeSticky = ModeSticky :=
  land_two_pow_cases m 20

theorem goTypeBits_sub :
    goTypeBits &&& ModeDir = ModeDir ∧ goTypeBits &&& ModeDevice = ModeDevice ∧
    goTypeBits &&& ModeCharDevice = ModeCharDevice ∧
    goTypeBits &&& ModeNamedPipe = ModeNamedPipe ∧
    goTypeBits &&& ModeSymlink = ModeSymlink ∧ goTypeBits &&& ModeSocket = ModeSocket := by
  decide

/-- Each type flag of a host mode is read off its type field. -/
theorem goMode_type_flags (m : Nat) :
    m &&& ModeDir = m &&& goTypeBits &&& ModeDir ∧
    m &&& ModeDevice = m &&& goTypeBits &&& ModeDevice ∧
    m &&& ModeCharDevice = m &&& goTypeBits &&& ModeCharDevice ∧
    m &&& ModeNamedPipe = m &&& goTypeBits &&& ModeNamedPipe ∧
    m &&& ModeSymlink = m &&& goTypeBits &&& ModeSymlink ∧
    m &&& ModeSocket = m &&& goTypeBits &&& ModeSocket := by
  simp only [Nat.land_assoc, goTypeBits_sub, and_self]

/-- A host mode without bits outside the legal ones is the union of its five
fields. -/
theorem goMode_fields (m : Nat)
    (hm : m &&& (goTypeBits ||| ModeSetuid ||| ModeSetgid ||| ModeSticky ||| 0o777) = m) :
    m = m &&& goTypeBits ||| m &&& ModeSetuid ||| m &&& ModeSetgid ||| m &&& ModeSticky |||
      m &&& 0o777 := by
  simpa only [Nat.and_or_distrib_left] using hm.symm

/-! ## Claims about the mode and attribute conversions -/

/-- What `ConvertAttributes` leaves in the device-number field: the input
device number when the encoded mode meets the mask `S_IFCHR | S_IFBLK`, and the
previous content of the record otherwise. -/
theorem ConvertAttributes_Rdev (inodeID : Nat) (inp : InodeAttributes) (out : Attr) :
    (ConvertAttributes inodeID inp out).Rdev =
      if ConvertGoMode inp.Mode &&& (S_IFCHR ||| S_IFBLK) ≠ 0 then inp.Rdev else out.Rdev := by
  unfold ConvertAttributes
  simp only [Attr.SetCrtime]
  split_ifs <;> rfl

/-- C1: `ConvertAttributes` should leave the device-number field at zero for a
file that is not a device. For a directory with mode 0755 and the input device
number 7 the encoded type bits are `S_IFDIR`, neither `S_IFCHR` nor `S_IFBLK`,
the output record holds device number 0 before the call, and yet it holds 7
after it: the source tests the mode against the mask `S_IFCHR | S_IFBLK`
instead of comparing its type bits. -/
theorem ConvertAttributes_directory_gets_Rdev :
    ConvertGoMode (ModeDir ||| 0o755) &&& S_IFMT = S_IFDIR ∧
    S_IFDIR ≠ S_IFCHR ∧ S_IFDIR ≠ S_IFBLK ∧
    (ConvertAttributes 1
      { Size := 0, Nlink := 2, Mode := ModeDir ||| 0o755, Rdev := 7, Atime := 0, Mtime := 0,
        Ctime := 0, Crtime := 0, Uid := 0, Gid := 0 }
      { Ino := 0, Size := 0, Blocks := 0, Atime := 0, Mtime := 0, Ctime := 0, Crtime := 0,
        AtimeNsec := 0, MtimeNsec := 0, CtimeNsec := 0, CrtimeNsec := 0, Mode := 0, Nlink := 0,
        Uid := 0, Gid := 0, Rdev := 0, Blksize := 0, padding := 0 }).Rdev = 7 := by
  refine ⟨by decide, by decide, by decide, ?_⟩
  rw [ConvertAttributes_Rdev]
  decide

/-- C2: decoding undoes encoding on every legal host mode:
`ConvertFileMode (ConvertGoMode m) = m`. -/
theorem ConvertFileMode_ConvertGoMode (m : Nat) (h : LegalGoMode m) :
    ConvertFileMode (ConvertGoMode m) = m := by
  obtain ⟨hm, ht⟩ := h
  have hf := goMode_fields m hm
  obtain ⟨h1, h2, h3, h4, h5, h6⟩ := goMode_type_flags m
  rcases land_ModeSetuid_cases m with hu | hu <;>
  rcases land_ModeSetgid_cases m with hg | hg <;>
  rcases land_ModeSticky_cases m with hs | hs <;>
  rcases ht with ht | ht | ht | ht | ht | ht | ht <;>
  · rw [ht, hu, hg, hs] at hf
    rw [ht] at h1 h2 h3 h4 h5 h6
    simp +decide only [lor_land_distrib, goMask_ModeDir, goMask_ModeSymlink, goMask_ModeDevice,
      goMask_ModeNamedPipe, goMask_ModeSocket, goMask_ModeCharDevice, Nat.zero_and,
      Nat.or_zero, Nat.zero_or] at h1 h2 h3 h4 h5 h6
    simp +decide only [ConvertFileMode, ConvertGoMode, h1, h2, h3, h4, h5, h6, hu, hg, hs,
      lor_land_distrib, Nat.land_assoc, unixMask_perm, unixMask_S_IFMT, unixMask_S_ISUID,
      unixMask_S_ISGID, unixMask_S_ISVTX, Nat.and_zero, Nat.or_zero, Nat.zero_or,
      if_true, if_false, ne_eq, not_true_eq_false, not_false_eq_true]
    refine Eq.symm (hf.trans ?_)
    simp only [Nat.or_zero, Nat.zero_or, Nat.lor_assoc] <;> ac_rfl

/-- Witness for C2: a setuid character device with permissions 0640 is a legal
host mode, and it survives the round trip. -/
theorem ConvertFileMode_ConvertGoMode_witness :
    LegalGoMode (ModeDevice ||| ModeCharDevice ||| ModeSetuid ||| 0o640) ∧
    ConvertFileMode (ConvertGoMode (ModeDevice ||| ModeCharDevice ||| ModeSetuid ||| 0o640)) =
      ModeDevice ||| ModeCharDevice ||| ModeSetuid ||| 0o640 :=
  ⟨by decide, ConvertFileMode_ConvertGoMode _ (by decide)⟩

/-- C3: encoding undoes decoding on every kernel mode word of a defined type
that has no bit outside `S_IFMT`, `S_ISUID`, `S_ISGID`, `S_ISVTX` and 0777:
`ConvertGoMode (ConvertFileMode k) = k`. -/
theorem ConvertGoMode_ConvertFileMode (k : Nat)
    (hk : k &&& (S_IFMT ||| S_ISUID ||| S_ISGID ||| S_ISVTX ||| 0o777) = k)
    (ht : k &&& S_IFMT = S_IFREG ∨ k &&& S_IFMT = S_IFDIR ∨ k &&& S_IFMT = S_IFCHR ∨
      k &&& S_IFMT = S_IFBLK ∨ k &&& S_IFMT = S_IFIFO ∨ k &&& S_IFMT = S_IFLNK ∨
      k &&& S_IFMT = S_IFSOCK) :
    ConvertGoMode (ConvertFileMode k) = k := by
  have hf := unixMode_fields k hk
  rcases land_S_ISUID_cases k with hu | hu <;>
  rcases land_S_ISGID_cases k with hg | hg <;>
  rcases land_S_ISVTX_cases k with hs | hs <;>
  rcases ht with ht | ht | ht | ht | ht | ht | ht <;>
  · rw [ht, hu, hg, hs] at hf
    simp +decide only [ConvertFileMode, ConvertGoMode, ht, hu, hg, hs, lor_land_distrib,
      Nat.land_assoc, goMask_perm, goMask_ModeDir, goMask_ModeSymlink, goMask_ModeDevice,
      goMask_ModeNamedPipe, goMask_ModeSocket, goMask_ModeSetuid, goMask_ModeSetgid,
      goMask_ModeCharDevice, goMask_ModeSticky, Nat.and_zero, Nat.or_zero, Nat.zero_or,
      if_true, if_false, ne_eq, not_true_eq_false, not_false_eq_true]
    refine Eq.symm (hf.trans ?_)
    simp only [Nat.or_zero, Nat.lor_assoc]
    ac_rfl

/-- Witness for C3: the mode word of a setgid, sticky symbolic link with
permissions 0751. -/
theorem ConvertGoMode_ConvertFileMode_witness :
    (S_IFLNK ||| S_ISGID ||| S_ISVTX ||| 0o751) &&&
        (S_IFMT ||| S_ISUID ||| S_ISGID ||| S_ISVTX ||| 0o777) =
      S_IFLNK ||| S_ISGID ||| S_ISVTX ||| 0o751 ∧
    ConvertGoMode (ConvertFileMode (S_IFLNK ||| S_ISGID ||| S_ISVTX ||| 0o751)) =
      S_IFLNK ||| S_ISGID ||| S_ISVTX ||| 0o751 :=
  ⟨by decide, ConvertGoMode_ConvertFileMode _ (by decide) (by decide)⟩

/-! ## Lemmas about byte buffers -/

theorem leBytes_length (w x : Nat) : (leBytes w x).length = w := by
  induction w generalizing x with
  | zero => rfl
  | succ w ih => simp [leBytes, ih]

theorem leValue_leBytes (w x : Nat) : leValue (leBytes w x) = x % 256 ^ w := by
  induction w generalizing x with
  | zero => simp [leBytes, leValue, Nat.mod_one]
  | succ w ih =>
    simp only [leBytes, leValue, ih]
    rw [Nat.pow_succ, Nat.mul_comm (256 ^ w) 256, Nat.mod_mul]

theorem direntHeader_length (d : Dirent) : (direntHeader d).length = 24 := by
  simp [direntHeader, leBytes_length]

/-- The padding length the source computes is `(8 - len mod 8) mod 8`. -/
theorem padLen_eq (len : Nat) :
    (if len % direntAlignment ≠ 0 then direntAlignment - len % direntAlignment else 0) =
      (8 - len % 8) % 8 := by
  unfold direntAlignment
  split_ifs <;> omega

/-- A copy that fits behind the prefix `pre` replaces the first bytes of the
rest of the buffer. -/
theorem copyAt_append (pre rest src : List Nat) (n : Nat) (hn : n = pre.length)
    (h : src.length ≤ rest.length) :
    copyAt (pre ++ rest) n src = (src.length, (pre ++ src) ++ rest.drop src.length) := by
  subst hn
  have hk : min ((pre ++ rest).length - pre.length) src.length = src.length := by
    simp only [List.length_append]; omega
  simp only [copyAt, hk, List.take_left, List.take_length, List.drop_append]

/-- The three copies of `WriteDirentPlus` behind a prefix `pre` of the buffer:
header, name and padding, each of which fits. -/
theorem copy_chain (pre rest : List Nat) (d : Dirent) (n : Nat) (hn : n = pre.length)
    (h : 24 + d.Name.length + (8 - d.Name.length % 8) % 8 ≤ rest.length) :
    copyAt (pre ++ rest) n (direntHeader d) = (24, pre ++ direntHeader d ++ rest.drop 24) ∧
    copyAt (pre ++ direntHeader d ++ rest.drop 24) (n + 24) d.Name =
      (d.Name.length, pre ++ direntHeader d ++ d.Name ++ rest.drop (24 + d.Name.length)) ∧
    copyAt (pre ++ direntHeader d ++ d.Name ++ rest.drop (24 + d.Name.length))
        (n + 24 + d.Name.length) (List.replicate ((8 - d.Name.length % 8) % 8) 0) =
      ((8 - d.Name.length % 8) % 8,
        pre ++ direntHeader d ++ d.Name ++ List.replicate ((8 - d.Name.length % 8) % 8) 0 ++
          rest.drop (24 + d.Name.length + (8 - d.Name.length % 8) % 8)) := by
  subst hn
  refine ⟨?_, ?_, ?_⟩
  · have := copyAt_append pre rest (direntHeader d) pre.length rfl
      (by rw [direntHeader_length]; omega)
    simpa [direntHeader_length] using this
  · have := copyAt_append (pre ++ direntHeader d) (rest.drop 24) d.Name (pre.length + 24)
      (by simp [direntHeader_length]) (by rw [List.length_drop]; omega)
    simpa [List.drop_drop, Nat.add_comm] using this
  · have := copyAt_append (pre ++ direntHeader d ++ d.Name) (rest.drop (24 + d.Name.length))
      (List.replicate ((8 - d.Name.length % 8) % 8) 0) (pre.length + 24 + d.Name.length)
      (by simp [direntHeader_length, Nat.add_assoc]) (by rw [List.length_drop, List.length_replicate]; omega)
    simpa [List.drop_drop, Nat.add_comm, Nat.add_left_comm] using this

theorem take_padding (len : Nat) :
    (List.replicate direntAlignment 0).take ((8 - len % 8) % 8) =
      List.replicate ((8 - len % 8) % 8) (0 : Nat) := by
  have hlt : (8 - len % 8) % 8 < 8 := Nat.mod_lt _ (by decide)
  rw [List.take_replicate, direntAlignment, Nat.min_eq_left (Nat.le_of_lt hlt)]

/-- When the required length exceeds the buffer, `WriteDirentPlus` returns 0
and hands the buffer back as it was, with or without an entry. -/
theorem WriteDirentPlus_no_room (L : EntryOutLayout) (clock : Clock) (buf : List Nat)
    (e : Option ChildInodeEntry) (d : Dirent)
    (h : buf.length <
      (if e.isSome then 24 + d.Name.length + (8 - d.Name.length % 8) % 8 + L.size
        else 24 + d.Name.length + (8 - d.Name.length % 8) % 8)) :
    WriteDirentPlus L clock buf e d = (0, buf) := by
  unfold WriteDirentPlus
  simp only [padLen_eq, direntSize]
  rw [if_pos h]

/-- What `WriteDirentPlus` does without an entry when the record fits. -/
theorem WriteDirentPlus_none_fits (L : EntryOutLayout) (clock : Clock) (buf : List Nat)
    (d : Dirent) (h : 24 + d.Name.length + (8 - d.Name.length % 8) % 8 ≤ buf.length) :
    WriteDirentPlus L clock buf none d =
      (24 + d.Name.length + (8 - d.Name.length % 8) % 8,
        direntHeader d ++ d.Name ++ List.replicate ((8 - d.Name.length % 8) % 8) 0 ++
          buf.drop (24 + d.Name.length + (8 - d.Name.length % 8) % 8)) := by
  obtain ⟨e1, e2, e3⟩ := copy_chain [] buf d 0 rfl h
  simp only [List.nil_append, Nat.zero_add] at e1 e2 e3
  unfold WriteDirentPlus
  simp only [padLen_eq, Option.isSome_none, Bool.false_eq_true, if_false, direntSize,
    Nat.zero_add, e1, e2]
  rw [if_neg (by omega), take_padding, e3]
  split_ifs with hz
  · rfl
  · have hz0 : (8 - d.Name.length % 8) % 8 = 0 := by omega
    simp only [hz0, List.replicate_zero, List.append_nil, Nat.add_zero]

/-- What `WriteDirentPlus` does with an entry when the record fits. -/
theorem WriteDirentPlus_some_fits (L : EntryOutLayout) (clock : Clock) (buf : List Nat)
    (e : ChildInodeEntry) (d : Dirent) (hL : ∀ o, (L.store o).length = L.size)
    (h : L.size + 24 + d.Name.length + (8 - d.Name.length % 8) % 8 ≤ buf.length) :
    WriteDirentPlus L clock buf (some e) d =
      (L.size + 24 + d.Name.length + (8 - d.Name.length % 8) % 8,
        L.store (ConvertChildInodeEntry clock e (L.load (buf.take L.size))) ++
          direntHeader d ++ d.Name ++ List.replicate ((8 - d.Name.length % 8) % 8) 0 ++
          buf.drop (L.size + 24 + d.Name.length + (8 - d.Name.length % 8) % 8)) := by
  obtain ⟨e1, e2, e3⟩ := copy_chain
    (L.store (ConvertChildInodeEntry clock e (L.load (buf.take L.size)))) (buf.drop L.size) d
    L.size (hL _).symm (by rw [List.length_drop]; omega)
  unfold WriteDirentPlus
  simp only [padLen_eq, Option.isSome_some, if_true, direntSize, Nat.zero_add, List.take_zero,
    List.nil_append, List.drop_zero, e1, e2]
  rw [if_neg (by omega), take_padding, e3]
  split_ifs with hz
  · simp only [List.drop_drop, Nat.add_assoc]
  · have hz0 : (8 - d.Name.length % 8) % 8 = 0 := by omega
    simp only [hz0, List.replicate_zero, List.append_nil, Nat.add_zero, List.drop_drop,
      Nat.add_assoc]

/-! ## Claims about the directory-entry encoder -/

/-- The layout `linuxEntryOut` stores every record in exactly `size` bytes. -/
theorem linuxEntryOut_store_length (o : EntryOut) :
    (linuxEntryOut.store o).length = linuxEntryOut.size := by
  simp [linuxEntryOut, leBytes_length]

/-- C4: when the record does not fit, that is when
`24 + len(d.Name) + (8 - len(d.Name) mod 8) mod 8` exceeds `len(buf)`,
`WriteDirent` returns 0 and the buffer after the call is the buffer before it. -/
theorem WriteDirent_no_room (L : EntryOutLayout) (clock : Clock) (buf : List Nat) (d : Dirent)
    (h : 24 + d.Name.length + (8 - d.Name.length % 8) % 8 > buf.length) :
    (WriteDirent L clock buf d).1 = 0 ∧ (WriteDirent L clock buf d).2 = buf := by
  rw [WriteDirent, WriteDirentPlus_no_room L clock buf none d (by simpa using h)]
  exact ⟨rfl, rfl⟩

/-- Witness for C4: a 3-byte name does not fit into a 31-byte buffer. -/
theorem WriteDirent_no_room_witness :
    24 + 3 + (8 - 3 % 8) % 8 > 31 ∧
    (WriteDirent linuxEntryOut ⟨0, 0⟩ (List.replicate 31 7) ⟨100, 5, [97, 98, 99], DT_File⟩).1
      = 0 ∧
    (WriteDirent linuxEntryOut ⟨0, 0⟩ (List.replicate 31 7) ⟨100, 5, [97, 98, 99], DT_File⟩).2
      = List.replicate 31 7 :=
  ⟨by decide,
    WriteDirent_no_room linuxEntryOut ⟨0, 0⟩ (List.replicate 31 7)
      ⟨100, 5, [97, 98, 99], DT_File⟩ (by decide)⟩

/-- C5: when the record fits, `WriteDirent` returns
`24 + len(d.Name) + (8 - len(d.Name) mod 8) mod 8`; that length is never 0, so
the return value is 0 exactly when the record does not fit. -/
theorem WriteDirent_returns_length (L : EntryOutLayout) (clock : Clock) (buf : List Nat)
    (d : Dirent) :
    (24 + d.Name.length + (8 - d.Name.length % 8) % 8 ≤ buf.length →
      (WriteDirent L clock buf d).1 = 24 + d.Name.length + (8 - d.Name.length % 8) % 8) ∧
    24 + d.Name.length + (8 - d.Name.length % 8) % 8 ≠ 0 ∧
    ((WriteDirent L clock buf d).1 = 0 ↔
      buf.length < 24 + d.Name.length + (8 - d.Name.length % 8) % 8) := by
  have hfit : 24 + d.Name.length + (8 - d.Name.length % 8) % 8 ≤ buf.length →
      (WriteDirent L clock buf d).1 = 24 + d.Name.length + (8 - d.Name.length % 8) % 8 := by
    intro h
    rw [WriteDirent, WriteDirentPlus_none_fits L clock buf d h]
  refine ⟨hfit, by omega, ?_⟩
  constructor
  · intro h0
    by_contra hlt
    have := hfit (by omega)
    omega
  · intro hlt
    rw [WriteDirent, WriteDirentPlus_no_room L clock buf none d (by simpa using hlt)]

/-- Witness for C5: a 3-byte name into a 32-byte buffer returns 32, and names
of 0, 8 and 9 bytes return 24, 32 and 40, the paddings being 0, 0 and 7. -/
theorem WriteDirent_returns_length_witness :
    (WriteDirent linuxEntryOut ⟨0, 0⟩ (List.replicate 32 7) ⟨100, 5, [97, 98, 99], DT_File⟩).1
      = 32 ∧
    (WriteDirent linuxEntryOut ⟨0, 0⟩ (List.replicate 64 7) ⟨1, 2, [], DT_Unknown⟩).1
      = 24 + 0 + 0 ∧
    (WriteDirent linuxEntryOut ⟨0, 0⟩ (List.replicate 64 7)
      ⟨1, 2, [1, 2, 3, 4, 5, 6, 7, 8], DT_Unknown⟩).1 = 24 + 8 + 0 ∧
    (WriteDirent linuxEntryOut ⟨0, 0⟩ (List.replicate 64 7)
      ⟨1, 2, [1, 2, 3, 4, 5, 6, 7, 8, 9], DT_Unknown⟩).1 = 24 + 9 + 7 :=
  ⟨(WriteDirent_returns_length linuxEntryOut ⟨0, 0⟩ (List.replicate 32 7)
      ⟨100, 5, [97, 98, 99], DT_File⟩).1 (by decide),
    (WriteDirent_returns_length linuxEntryOut ⟨0, 0⟩ (List.replicate 64 7)
      ⟨1, 2, [], DT_Unknown⟩).1 (by decide),
    (WriteDirent_returns_length linuxEntryOut ⟨0, 0⟩ (List.replicate 64 7)
      ⟨1, 2, [1, 2, 3, 4, 5, 6, 7, 8], DT_Unknown⟩).1 (by decide),
    (WriteDirent_returns_length linuxEntryOut ⟨0, 0⟩ (List.replicate 64 7)
      ⟨1, 2, [1, 2, 3, 4, 5, 6, 7, 8, 9], DT_Unknown⟩).1 (by decide)⟩

/-- The header of a well-typed entry holds its four fields unreduced. -/
theorem direntHeader_eq (d : Dirent) (hI : d.Inode < 2 ^ 64) (hO : d.Offset < 2 ^ 64)
    (hN : d.Name.length < 2 ^ 32) (hT : d.Type_ < 2 ^ 32) :
    direntHeader d =
      leBytes 8 d.Inode ++ leBytes 8 d.Offset ++ leBytes 4 d.Name.length ++ leBytes 4 d.Type_ := by
  simp only [direntHeader, Nat.mod_eq_of_lt hI, Nat.mod_eq_of_lt hO, Nat.mod_eq_of_lt hN,
    Nat.mod_eq_of_lt hT]

/-- The bytes at offset `pre.length` of a buffer that starts with `pre ++ x`. -/
theorem slice_append (pre x post : List Nat) (n k : Nat) (hn : n = pre.length)
    (hk : k = x.length) : ((pre ++ x ++ post).drop n).take k = x := by
  subst hn hk
  simp [List.append_assoc]

/-- C6: the first `n` bytes that `WriteDirent` leaves in the buffer are the
8-byte inode id, the 8-byte offset, the 4-byte name length and the 4-byte type
tag, least significant byte first, then the name and then zero bytes of
padding; reading the fields back gives the entry. -/
theorem WriteDirent_layout (L : EntryOutLayout) (clock : Clock) (buf : List Nat) (d : Dirent)
    (hI : d.Inode < 2 ^ 64) (hO : d.Offset < 2 ^ 64) (hN : d.Name.length < 2 ^ 32)
    (hT : d.Type_ < 2 ^ 32)
    (h : 24 + d.Name.length + (8 - d.Name.length % 8) % 8 ≤ buf.length) :
    (WriteDirent L clock buf d).2.take (WriteDirent L clock buf d).1 =
      leBytes 8 d.Inode ++ leBytes 8 d.Offset ++ leBytes 4 d.Name.length ++
        leBytes 4 d.Type_ ++ d.Name ++ List.replicate ((8 - d.Name.length % 8) % 8) 0 ∧
    leValue ((WriteDirent L clock buf d).2.take 8) = d.Inode ∧
    leValue (((WriteDirent L clock buf d).2.drop 8).take 8) = d.Offset ∧
    leValue (((WriteDirent L clock buf d).2.drop 16).take 4) = d.Name.length ∧
    leValue (((WriteDirent L clock buf d).2.drop 20).take 4) = d.Type_ ∧
    ((WriteDirent L clock buf d).2.drop 24).take d.Name.length = d.Name ∧
    ((WriteDirent L clock buf d).2.drop (24 + d.Name.length)).take
        ((8 - d.Name.length % 8) % 8) = List.replicate ((8 - d.Name.length % 8) % 8) 0 := by
  rw [WriteDirent, WriteDirentPlus_none_fits L clock buf d h, direntHeader_eq d hI hO hN hT]
  simp only
  have v8 : ∀ x, x < 2 ^ 64 → leValue (leBytes 8 x) = x := fun x hx => by
    rw [leValue_leBytes]; exact Nat.mod_eq_of_lt hx
  have v4 : ∀ x, x < 2 ^ 32 → leValue (leBytes 4 x) = x := fun x hx => by
    rw [leValue_leBytes]; exact Nat.mod_eq_of_lt hx
  refine ⟨?_, ?_, ?_, ?_, ?_, ?_, ?_⟩
  · rw [List.take_left']
    simp [leBytes_length]; omega
  · have := slice_append [] (leBytes 8 d.Inode)
      (leBytes 8 d.Offset ++ leBytes 4 d.Name.length ++ leBytes 4 d.Type_ ++ d.Name ++
        List.replicate ((8 - d.Name.length % 8) % 8) 0 ++
        buf.drop (24 + d.Name.length + (8 - d.Name.length % 8) % 8)) 0 8 rfl
      (leBytes_length 8 _).symm
    simp only [List.nil_append, List.drop_zero, List.append_assoc] at this ⊢
    rw [this, v8 _ hI]
  · have := slice_append (leBytes 8 d.Inode) (leBytes 8 d.Offset)
      (leBytes 4 d.Name.length ++ leBytes 4 d.Type_ ++ d.Name ++
        List.replicate ((8 - d.Name.length % 8) % 8) 0 ++
        buf.drop (24 + d.Name.length + (8 - d.Name.length % 8) % 8)) 8 8
      (leBytes_length 8 _).symm (leBytes_length 8 _).symm
    simp only [List.append_assoc] at this ⊢
    rw [this, v8 _ hO]
  · have := slice_append (leBytes 8 d.Inode ++ leBytes 8 d.Offset) (leBytes 4 d.Name.length)
      (leBytes 4 d.Type_ ++ d.Name ++
        List.replicate ((8 - d.Name.length % 8) % 8) 0 ++
        buf.drop (24 + d.Name.length + (8 - d.Name.length % 8) % 8)) 16 4
      (by simp [leBytes_length]) (leBytes_length 4 _).symm
    simp only [List.append_assoc] at this ⊢
    rw [this, v4 _ hN]
  · have := slice_append (leBytes 8 d.Inode ++ leBytes 8 d.Offset ++ leBytes 4 d.Name.length)
      (leBytes 4 d.Type_) (d.Name ++
        List.replicate ((8 - d.Name.length % 8) % 8) 0 ++
        buf.drop (24 + d.Name.length + (8 - d.Name.length % 8) % 8)) 20 4
      (by simp [leBytes_length]) (leBytes_length 4 _).symm
    simp only [List.append_assoc] at this ⊢
    rw [this, v4 _ hT]
  · have := slice_append (leBytes 8 d.Inode ++ leBytes 8 d.Offset ++ leBytes 4 d.Name.length ++
      leBytes 4 d.Type_) d.Name
      (List.replicate ((8 - d.Name.length % 8) % 8) 0 ++
        buf.drop (24 + d.Name.length + (8 - d.Name.length % 8) % 8)) 24 d.Name.length
      (by simp [leBytes_length]) rfl
    simp only [List.append_assoc] at this ⊢
    exact this
  · have := slice_append (leBytes 8 d.Inode ++ leBytes 8 d.Offset ++ leBytes 4 d.Name.length ++
      leBytes 4 d.Type_ ++ d.Name) (List.replicate ((8 - d.Name.length % 8) % 8) 0)
      (buf.drop (24 + d.Name.length + (8 - d.Name.length % 8) % 8)) (24 + d.Name.length)
      ((8 - d.Name.length % 8) % 8)
      (by simp [leBytes_length]; omega) (by simp)
    simp only [List.append_assoc] at this ⊢
    exact this

/-- Witness for C6: offset 100, inode 5, name "abc" and type `DT_File` into a
64-byte buffer give 32 bytes, the last 5 of them zero padding. -/
theorem WriteDirent_layout_witness :
    (WriteDirent linuxEntryOut ⟨0, 0⟩ (List.replicate 64 7)
      ⟨100, 5, [97, 98, 99], DT_File⟩).1 = 32 ∧
    (WriteDirent linuxEntryOut ⟨0, 0⟩ (List.replicate 64 7)
      ⟨100, 5, [97, 98, 99], DT_File⟩).2.take 32 =
      [5, 0, 0, 0, 0, 0, 0, 0, 100, 0, 0, 0, 0, 0, 0, 0, 3, 0, 0, 0, 8, 0, 0, 0,
        97, 98, 99, 0, 0, 0, 0, 0] ∧
    leValue ((WriteDirent linuxEntryOut ⟨0, 0⟩ (List.replicate 64 7)
      ⟨100, 5, [97, 98, 99], DT_File⟩).2.take 8) = 5 ∧
    leValue (((WriteDirent linuxEntryOut ⟨0, 0⟩ (List.replicate 64 7)
      ⟨100, 5, [97, 98, 99], DT_File⟩).2.drop 8).take 8) = 100 ∧
    leValue (((WriteDirent linuxEntryOut ⟨0, 0⟩ (List.replicate 64 7)
      ⟨100, 5, [97, 98, 99], DT_File⟩).2.drop 16).take 4) = 3 ∧
    leValue (((WriteDirent linuxEntryOut ⟨0, 0⟩ (List.replicate 64 7)
      ⟨100, 5, [97, 98, 99], DT_File⟩).2.drop 20).take 4) = DT_File ∧
    ((WriteDirent linuxEntryOut ⟨0, 0⟩ (List.replicate 64 7)
      ⟨100, 5, [97, 98, 99], DT_File⟩).2.drop 24).take 3 = [97, 98, 99] ∧
    ((WriteDirent linuxEntryOut ⟨0, 0⟩ (List.replicate 64 7)
      ⟨100, 5, [97, 98, 99], DT_File⟩).2.drop 27).take 5 = [0, 0, 0, 0, 0] := by
  have w := WriteDirent_layout linuxEntryOut ⟨0, 0⟩ (List.replicate 64 7)
    ⟨100, 5, [97, 98, 99], DT_File⟩ (by decide) (by decide) (by decide) (by decide) (by decide)
  exact ⟨by decide, w.1, w.2.1, w.2.2.1, w.2.2.2.1, w.2.2.2.2.1, w.2.2.2.2.2.1, w.2.2.2.2.2.2⟩

/-- C7: with an entry, `WriteDirentPlus` needs `E + 24 + len(d.Name) + padding`
bytes, `E` being the size of the entry record. If the buffer has them, that is
the return value, bytes `[0, E)` are the record that `ConvertChildInodeEntry`
fills in and bytes `[E, n)` are the bytes `WriteDirent` writes for the entry;
if not, the return value is 0 and the buffer is unchanged. -/
theorem WriteDirentPlus_entry_record (L : EntryOutLayout) (clock : Clock) (buf : List Nat)
    (e : ChildInodeEntry) (d : Dirent) (hL : ∀ o, (L.store o).length = L.size) :
    (L.size + 24 + d.Name.length + (8 - d.Name.length % 8) % 8 ≤ buf.length →
      (WriteDirentPlus L clock buf (some e) d).1 =
        L.size + 24 + d.Name.length + (8 - d.Name.length % 8) % 8 ∧
      (WriteDirentPlus L clock buf (some e) d).2.take L.size =
        L.store (ConvertChildInodeEntry clock e (L.load (buf.take L.size))) ∧
      ∀ buf₂ : List Nat, 24 + d.Name.length + (8 - d.Name.length % 8) % 8 ≤ buf₂.length →
        ((WriteDirentPlus L clock buf (some e) d).2.drop L.size).take
            ((WriteDirentPlus L clock buf (some e) d).1 - L.size) =
          (WriteDirent L clock buf₂ d).2.take (WriteDirent L clock buf₂ d).1) ∧
    (buf.length < L.size + 24 + d.Name.length + (8 - d.Name.length % 8) % 8 →
      (WriteDirentPlus L clock buf (some e) d).1 = 0 ∧
      (WriteDirentPlus L clock buf (some e) d).2 = buf) := by
  constructor
  · intro h
    rw [WriteDirentPlus_some_fits L clock buf e d hL h]
    refine ⟨rfl, ?_, ?_⟩
    · simp only [List.append_assoc]
      rw [List.take_left' (hL _)]
    · intro buf₂ h₂
      rw [WriteDirent, WriteDirentPlus_none_fits L clock buf₂ d h₂]
      simp only [List.append_assoc]
      rw [List.drop_left' (hL _)]
      have hlen : L.size + 24 + d.Name.length + (8 - d.Name.length % 8) % 8 - L.size =
          24 + d.Name.length + (8 - d.Name.length % 8) % 8 := by omega
      rw [hlen]
      have key : ∀ rest : List Nat,
          (direntHeader d ++ (d.Name ++
            (List.replicate ((8 - d.Name.length % 8) % 8) 0 ++ rest))).take
            (24 + d.Name.length + (8 - d.Name.length % 8) % 8) =
          direntHeader d ++ (d.Name ++ List.replicate ((8 - d.Name.length % 8) % 8) 0) := by
        intro rest
        rw [← List.append_assoc d.Name, ← List.append_assoc (direntHeader d)]
        apply List.take_left'
        simp [direntHeader_length]; omega
      simp only [key]
  · intro h
    rw [WriteDirentPlus_no_room L clock buf (some e) d
      (by simp only [Option.isSome_some, if_true]; omega)]
    exact ⟨rfl, rfl⟩

/-- Witness for C7: with the 128-byte layout, an entry with a 3-byte name
returns 160 from a 160-byte buffer, and 0 from a 159-byte buffer, which it
leaves as it was. -/
theorem WriteDirentPlus_entry_record_witness :
    (∀ o, (linuxEntryOut.store o).length = linuxEntryOut.size) ∧
    (WriteDirentPlus linuxEntryOut ⟨0, 0⟩ (List.replicate 160 7)
      (some ⟨5, 1, ⟨3, 1, 0o644, 0, 0, 0, 0, 0, 0, 0⟩, 1500000000, 2000000000⟩)
      ⟨100, 5, [97, 98, 99], DT_File⟩).1 = 160 ∧
    (WriteDirentPlus linuxEntryOut ⟨0, 0⟩ (List.replicate 159 7)
      (some ⟨5, 1, ⟨3, 1, 0o644, 0, 0, 0, 0, 0, 0, 0⟩, 1500000000, 2000000000⟩)
      ⟨100, 5, [97, 98, 99], DT_File⟩).1 = 0 ∧
    (WriteDirentPlus linuxEntryOut ⟨0, 0⟩ (List.replicate 159 7)
      (some ⟨5, 1, ⟨3, 1, 0o644, 0, 0, 0, 0, 0, 0, 0⟩, 1500000000, 2000000000⟩)
      ⟨100, 5, [97, 98, 99], DT_File⟩).2 = List.replicate 159 7 :=
  ⟨linuxEntryOut_store_length,
    ((WriteDirentPlus_entry_record linuxEntryOut ⟨0, 0⟩ (List.replicate 160 7)
      ⟨5, 1, ⟨3, 1, 0o644, 0, 0, 0, 0, 0, 0, 0⟩, 1500000000, 2000000000⟩
      ⟨100, 5, [97, 98, 99], DT_File⟩ linuxEntryOut_store_length).1
      (by simp [linuxEntryOut])).1,
    (WriteDirentPlus_entry_record linuxEntryOut ⟨0, 0⟩ (List.replicate 159 7)
      ⟨5, 1, ⟨3, 1, 0o644, 0, 0, 0, 0, 0, 0, 0⟩, 1500000000, 2000000000⟩
      ⟨100, 5, [97, 98, 99], DT_File⟩ linuxEntryOut_store_length).2
      (by simp [linuxEntryOut])⟩

/-! ## Claims about block counts and expiration times -/

/-- The block count `ConvertAttributes` writes, with the wrap-around of the
64-bit sum spelled out. -/
theorem ConvertAttributes_Blocks (inodeID : Nat) (inp : InodeAttributes) (out : Attr) :
    (ConvertAttributes inodeID inp out).Blocks =
      ((inp.Size + 512) % 2 ^ 64 + 2 ^ 64 - 1) % 2 ^ 64 / 512 := by
  unfold ConvertAttributes
  simp only [Attr.SetCrtime]
  split_ifs <;> rfl

/-- Up to size `2 ^ 64 - 512` the block count is the ceiling of `size / 512`. -/
theorem ConvertAttributes_Blocks_of_le (inodeID : Nat) (inp : InodeAttributes) (out : Attr)
    (h : inp.Size + 512 ≤ 2 ^ 64) :
    (ConvertAttributes inodeID inp out).Blocks = (inp.Size + 511) / 512 := by
  rw [ConvertAttributes_Blocks]
  omega

/-- C8: the block count should be the ceiling of `size / 512` for every 64-bit
size. For the size `2 ^ 64 - 1` the sum `size + 512 - 1` wraps around to 510 and
the block count written is 0, while the ceiling is `2 ^ 55`. -/
theorem ConvertAttributes_Blocks_wraps :
    (ConvertAttributes 1
      { Size := 2 ^ 64 - 1, Nlink := 1, Mode := 0o644, Rdev := 0, Atime := 0, Mtime := 0,
        Ctime := 0, Crtime := 0, Uid := 0, Gid := 0 }
      { Ino := 0, Size := 0, Blocks := 0, Atime := 0, Mtime := 0, Ctime := 0, Crtime := 0,
        AtimeNsec := 0, MtimeNsec := 0, CtimeNsec := 0, CrtimeNsec := 0, Mode := 0, Nlink := 0,
        Uid := 0, Gid := 0, Rdev := 0, Blksize := 0, padding := 0 }).Blocks = 0 ∧
    (2 ^ 64 - 1 + 511) / 512 = 2 ^ 55 ∧ (2 ^ 55 - 1) * 512 < 2 ^ 64 - 1 ∧
    2 ^ 64 - 1 ≤ 2 ^ 55 * 512 := by
  refine ⟨?_, by decide, by decide, by decide⟩
  rw [ConvertAttributes_Blocks]
  decide

/-- A duration read off two instants is the saturated difference. -/
theorem Sub_nonpos (t u : Int) (h : t ≤ u) : Sub t u ≤ 0 := by
  unfold Sub minDuration maxDuration
  split_ifs <;> omega

/-- C9: an expiration that is not after the clock reading, however far in the
past, is converted to `(0, 0)`. -/
theorem ConvertExpirationTime_past (now t : Int) (h : t ≤ now) :
    ConvertExpirationTime now t = (0, 0) := by
  have hd := Sub_nonpos t now h
  unfold ConvertExpirationTime
  simp only
  rw [if_neg (by omega)]

/-- Witness for C9: an expiration at the epoch, read by a clock that is more
than `2 ^ 63` nanoseconds past it. -/
theorem ConvertExpirationTime_past_witness :
    (0 : Int) ≤ 10 ^ 30 ∧ ConvertExpirationTime (10 ^ 30) 0 = (0, 0) :=
  ⟨by decide, ConvertExpirationTime_past (10 ^ 30) 0 (by decide)⟩

/-- C10: for an expiration after the clock reading and at most 100 years
away, the seconds are the whole seconds of `t - now` and the nanoseconds the
rest, so that `secs * 10 ^ 9 + nsecs = t - now` with `nsecs < 10 ^ 9`. -/
theorem ConvertExpirationTime_future (now t : Int) (h₁ : now < t)
    (h₂ : t - now ≤ hundredYears) :
    ((ConvertExpirationTime now t).1 : Int) = (t - now) / 1000000000 ∧
    ((ConvertExpirationTime now t).2 : Int) = (t - now) % 1000000000 ∧
    ((ConvertExpirationTime now t).1 : Int) * 1000000000 + (ConvertExpirationTime now t).2 =
      t - now ∧
    (ConvertExpirationTime now t).2 < 1000000000 := by
  unfold hundredYears at h₂
  have hs : Sub t now = t - now := by
    unfold Sub minDuration maxDuration
    rw [if_neg (by omega), if_neg (by omega)]
  have hpos : (0 : Int) ≤ t - now := by omega
  have h1 : ConvertExpirationTime now t =
      (((t - now) / 1000000000).toNat, ((t - now) % 1000000000).toNat) := by
    unfold ConvertExpirationTime
    simp only [hs]
    rw [if_pos (by omega)]
    unfold toUint64 toUint32 Second Nanosecond
    rw [Int.tdiv_eq_ediv hpos (by decide), Int.tmod_eq_emod hpos (by decide), Int.tdiv_one]
    congr 2
    · apply Int.emod_eq_of_lt <;> omega
    · apply Int.emod_eq_of_lt <;> omega
  rw [h1]
  simp only
  have ha : (0 : Int) ≤ (t - now) / 1000000000 := by omega
  have hb : (0 : Int) ≤ (t - now) % 1000000000 := by omega
  rw [Int.toNat_of_nonneg ha, Int.toNat_of_nonneg hb]
  refine ⟨rfl, rfl, by omega, by omega⟩

/-- Witness for C10: an expiration 2.5 seconds after the clock reading. -/
theorem ConvertExpirationTime_future_witness :
    ((ConvertExpirationTime 1000 2500001000).1 : Int) = 2 ∧
    ((ConvertExpirationTime 1000 2500001000).2 : Int) = 500000000 ∧
    ((ConvertExpirationTime 1000 2500001000).1 : Int) * 1000000000 +
      (ConvertExpirationTime 1000 2500001000).2 = 2500001000 - 1000 ∧
    (ConvertExpirationTime 1000 2500001000).2 < 1000000000 :=
  ConvertExpirationTime_future 1000 2500001000 (by decide) (by decide)

/-! ## Claims about absolute times -/

/-- Inside the range of `int64` nanoseconds, at or after the epoch,
`ConvertTime` is the quotient and remainder by one second. -/
theorem ConvertTime_in_range (t : Int) (h₀ : 0 ≤ t) (h₁ : t < 2 ^ 63) :
    ConvertTime t = ((t / 1000000000).toNat, (t % 1000000000).toNat) := by
  have hw : wrapInt64 t = t := by
    unfold wrapInt64
    rw [Int.emod_eq_of_lt (by omega) (by omega)]
    omega
  unfold ConvertTime UnixNano toUint64 toUint32
  simp only [hw]
  rw [Int.tdiv_eq_ediv h₀ (by decide), Int.tmod_eq_emod h₀ (by decide)]
  congr 2
  · apply Int.emod_eq_of_lt <;> omega
  · apply Int.emod_eq_of_lt <;> omega

/-- C11, as the code has it: for an instant at or after the epoch whose
nanosecond count fits in a signed 64-bit integer, the nanosecond field of
`ConvertTime` is below `10 ^ 9`. -/
theorem ConvertTime_nsec_lt (t : Int) (h₀ : 0 ≤ t) (h₁ : t < 2 ^ 63) :
    (ConvertTime t).2 < 1000000000 := by
  rw [ConvertTime_in_range t h₀ h₁]
  simp only
  omega

/-- Witness for C11: one and a half seconds after the epoch. -/
theorem ConvertTime_nsec_lt_witness :
    (0 : Int) ≤ 1500000000 ∧ (1500000000 : Int) < 2 ^ 63 ∧
    (ConvertTime 1500000000).2 < 1000000000 :=
  ⟨by decide, by decide, ConvertTime_nsec_lt 1500000000 (by decide) (by decide)⟩

/-- C11 fails as stated: `2 ^ 63` nanoseconds after the epoch (in the year 2262)
`UnixNano` wraps around to a negative count, and the nanosecond field becomes
3440191488, which is not below `10 ^ 9`. -/
theorem ConvertTime_nsec_wraps :
    (0 : Int) ≤ 2 ^ 63 ∧ (ConvertTime (2 ^ 63)).2 = 3440191488 ∧
    ¬ (ConvertTime (2 ^ 63)).2 < 1000000000 := by
  decide

/-- C20: for an instant at or after the epoch whose nanosecond count `N` fits
in a signed 64-bit integer, `ConvertTime` returns `(N div 10 ^ 9, N mod 10 ^ 9)`,
so that `secs * 10 ^ 9 + nsec = N`. -/
theorem ConvertTime_exact (t : Int) (h₀ : 0 ≤ t) (h₁ : t < 2 ^ 63) :
    ConvertTime t = (t.toNat / 1000000000, t.toNat % 1000000000) ∧
    (ConvertTime t).1 * 1000000000 + (ConvertTime t).2 = t.toNat := by
  have h : ConvertTime t = (t.toNat / 1000000000, t.toNat % 1000000000) := by
    rw [ConvertTime_in_range t h₀ h₁]
    congr 1 <;> omega
  refine ⟨h, ?_⟩
  rw [h]
  simp only
  omega

/-- Witness for C20: 1700000000.123456789 seconds after the epoch. -/
theorem ConvertTime_exact_witness :
    ConvertTime 1700000000123456789 = (1700000000, 123456789) ∧
    (ConvertTime 1700000000123456789).1 * 1000000000 + (ConvertTime 1700000000123456789).2 =
      1700000000123456789 :=
  ConvertTime_exact 1700000000123456789 (by decide) (by decide)

/-! ## Claims about the choice of the file type -/

theorem ite_land (c : Prop) [Decidable c] (a b k : Nat) :
    (if c then a else b) &&& k = if c then a &&& k else b &&& k := by
  split_ifs <;> rfl

/-- C12: the type bits of `ConvertGoMode m` are chosen by a fixed priority, for
every mode `m`: `S_IFDIR` if `ModeDir` is set; else, if `ModeDevice` is set,
`S_IFCHR` with `ModeCharDevice` and `S_IFBLK` without; else `S_IFIFO` if
`ModeNamedPipe` is set; else `S_IFLNK` if `ModeSymlink` is set; else `S_IFSOCK`
if `ModeSocket` is set; else `S_IFREG`. -/
theorem ConvertGoMode_type_priority (m : Nat) :
    ConvertGoMode m &&& S_IFMT =
      if m &&& ModeDir ≠ 0 then S_IFDIR
      else if m &&& ModeDevice ≠ 0 then
        if m &&& ModeCharDevice ≠ 0 then S_IFCHR else S_IFBLK
      else if m &&& ModeNamedPipe ≠ 0 then S_IFIFO
      else if m &&& ModeSymlink ≠ 0 then S_IFLNK
      else if m &&& ModeSocket ≠ 0 then S_IFSOCK
      else S_IFREG := by
  simp only [ConvertGoMode, ite_land, lor_land_distrib, Nat.land_assoc, unixMask_S_IFMT,
    Nat.and_zero, Nat.or_zero, Nat.zero_or, ite_self]

/-- Witness for C12: a mode with `ModeDir` and `ModeSymlink` encodes as a
directory, and `ModeCharDevice` without `ModeDevice` as a regular file. -/
theorem ConvertGoMode_type_priority_witness :
    ConvertGoMode (ModeDir ||| ModeSymlink ||| 0o755) &&& S_IFMT = S_IFDIR ∧
    ConvertGoMode (ModeCharDevice ||| 0o644) &&& S_IFMT = S_IFREG :=
  ⟨(ConvertGoMode_type_priority (ModeDir ||| ModeSymlink ||| 0o755)).trans (by decide),
    (ConvertGoMode_type_priority (ModeCharDevice ||| 0o644)).trans (by decide)⟩

/-- C13: for a kernel mode word whose type bits are none of the seven defined
types, `ConvertFileMode` sets `ModeDevice` and none of `ModeDir`,
`ModeCharDevice`, `ModeNamedPipe`, `ModeSymlink`, `ModeSocket`; the permission
bits are `k & 0777`, and `ModeSetuid`, `ModeSetgid`, `ModeSticky` are set exactly
when `S_ISUID`, `S_ISGID`, `S_ISVTX` are set in `k`. -/
theorem ConvertFileMode_fallback (k : Nat)
    (h₁ : k &&& S_IFMT ≠ S_IFREG) (h₂ : k &&& S_IFMT ≠ S_IFDIR) (h₃ : k &&& S_IFMT ≠ S_IFCHR)
    (h₄ : k &&& S_IFMT ≠ S_IFBLK) (h₅ : k &&& S_IFMT ≠ S_IFIFO) (h₆ : k &&& S_IFMT ≠ S_IFLNK)
    (h₇ : k &&& S_IFMT ≠ S_IFSOCK) :
    ConvertFileMode k &&& ModeDevice = ModeDevice ∧
    ConvertFileMode k &&& ModeDir = 0 ∧
    ConvertFileMode k &&& ModeCharDevice = 0 ∧
    ConvertFileMode k &&& ModeNamedPipe = 0 ∧
    ConvertFileMode k &&& ModeSymlink = 0 ∧
    ConvertFileMode k &&& ModeSocket = 0 ∧
    ConvertFileMode k &&& 0o777 = k &&& 0o777 ∧
    (ConvertFileMode k &&& ModeSetuid ≠ 0 ↔ k &&& S_ISUID ≠ 0) ∧
    (ConvertFileMode k &&& ModeSetgid ≠ 0 ↔ k &&& S_ISGID ≠ 0) ∧
    (ConvertFileMode k &&& ModeSticky ≠ 0 ↔ k &&& S_ISVTX ≠ 0) := by
  simp only [ConvertFileMode, h₁, h₂, h₃, h₄, h₅, h₆, h₇, if_false, ite_land, lor_land_distrib, Nat.land_assoc, goMask_perm, goMask_ModeDir,
    goMask_ModeSymlink, goMask_ModeDevice, goMask_ModeNamedPipe, goMask_ModeSocket,
    goMask_ModeSetuid, goMask_ModeSetgid, goMask_ModeCharDevice, goMask_ModeSticky,
    Nat.and_zero, Nat.or_zero, Nat.zero_or, ite_self, true_and]
  refine ⟨?_, ?_, ?_⟩
  · by_cases h : k &&& S_ISUID = 0 <;> simp +decide [h]
  · by_cases h : k &&& S_ISGID = 0 <;> simp +decide [h]
  · by_cases h : k &&& S_ISVTX = 0 <;> simp +decide [h]

/-- Witness for C13: the type bits `0xe000` and `0` are undefined; the decoded
modes are devices with the permissions and special bits carried over. -/
theorem ConvertFileMode_fallback_witness :
    ConvertFileMode (0xe000 ||| S_ISUID ||| 0o751) = ModeDevice ||| ModeSetuid ||| 0o751 ∧
    ConvertFileMode (0xe000 ||| S_ISUID ||| 0o751) &&& ModeDevice = ModeDevice ∧
    ConvertFileMode 0o644 &&& ModeDevice = ModeDevice :=
  ⟨by decide,
    (ConvertFileMode_fallback (0xe000 ||| S_ISUID ||| 0o751) (by decide) (by decide) (by decide)
      (by decide) (by decide) (by decide) (by decide)).1,
    (ConvertFileMode_fallback 0o644 (by decide) (by decide) (by decide)
      (by decide) (by decide) (by decide) (by decide)).1⟩

theorem unixMask_all :
    (0o777 &&& (S_IFMT ||| 0o7777) : Nat) = 0o777 ∧
    (S_IFSOCK &&& (S_IFMT ||| 0o7777) : Nat) = S_IFSOCK ∧
    (S_IFLNK &&& (S_IFMT ||| 0o7777) : Nat) = S_IFLNK ∧
    (S_IFREG &&& (S_IFMT ||| 0o7777) : Nat) = S_IFREG ∧
    (S_IFBLK &&& (S_IFMT ||| 0o7777) : Nat) = S_IFBLK ∧
    (S_IFDIR &&& (S_IFMT ||| 0o7777) : Nat) = S_IFDIR ∧
    (S_IFCHR &&& (S_IFMT ||| 0o7777) : Nat) = S_IFCHR ∧
    (S_IFIFO &&& (S_IFMT ||| 0o7777) : Nat) = S_IFIFO ∧
    (S_ISUID &&& (S_IFMT ||| 0o7777) : Nat) = S_ISUID ∧
    (S_ISGID &&& (S_IFMT ||| 0o7777) : Nat) = S_ISGID ∧
    (S_ISVTX &&& (S_IFMT ||| 0o7777) : Nat) = S_ISVTX := by
  decide

/-- C19: for every host mode `m` whatsoever, the type bits of `ConvertGoMode m`
are one of the seven defined kernel types and no bit lies outside
`S_IFMT | 07777`; hence decoding it does not take the fallback branch and
encoding the decoded mode gives `ConvertGoMode m` back. -/
theorem ConvertGoMode_idempotent (m : Nat) :
    (ConvertGoMode m &&& S_IFMT = S_IFREG ∨ ConvertGoMode m &&& S_IFMT = S_IFDIR ∨
      ConvertGoMode m &&& S_IFMT = S_IFCHR ∨ ConvertGoMode m &&& S_IFMT = S_IFBLK ∨
      ConvertGoMode m &&& S_IFMT = S_IFIFO ∨ ConvertGoMode m &&& S_IFMT = S_IFLNK ∨
      ConvertGoMode m &&& S_IFMT = S_IFSOCK) ∧
    ConvertGoMode m &&& (S_IFMT ||| 0o7777) = ConvertGoMode m ∧
    ConvertGoMode (ConvertFileMode (ConvertGoMode m)) = ConvertGoMode m := by
  have ha : ConvertGoMode m &&& S_IFMT =
      if m &&& ModeDir ≠ 0 then S_IFDIR
      else if m &&& ModeDevice ≠ 0 then
        if m &&& ModeCharDevice ≠ 0 then S_IFCHR else S_IFBLK
      else if m &&& ModeNamedPipe ≠ 0 then S_IFIFO
      else if m &&& ModeSymlink ≠ 0 then S_IFLNK
      else if m &&& ModeSocket ≠ 0 then S_IFSOCK
      else S_IFREG := by
    simp only [ConvertGoMode, ite_land, lor_land_distrib, Nat.land_assoc, unixMask_S_IFMT,
      Nat.and_zero, Nat.or_zero, Nat.zero_or, ite_self]
  have ht : ConvertGoMode m &&& S_IFMT = S_IFREG ∨ ConvertGoMode m &&& S_IFMT = S_IFDIR ∨
      ConvertGoMode m &&& S_IFMT = S_IFCHR ∨ ConvertGoMode m &&& S_IFMT = S_IFBLK ∨
      ConvertGoMode m &&& S_IFMT = S_IFIFO ∨ ConvertGoMode m &&& S_IFMT = S_IFLNK ∨
      ConvertGoMode m &&& S_IFMT = S_IFSOCK := by
    rw [ha]
    split_ifs <;> decide
  have hb : ConvertGoMode m &&& (S_IFMT ||| 0o7777) = ConvertGoMode m := by
    simp only [ConvertGoMode, ite_land, lor_land_distrib, Nat.land_assoc, unixMask_all]
  refine ⟨ht, hb, ?_⟩
  have hmask : (S_IFMT ||| 0o7777 : Nat) = S_IFMT ||| S_ISUID ||| S_ISGID ||| S_ISVTX ||| 0o777 := by
    decide
  rw [hmask] at hb
  generalize ConvertGoMode m = k at ht hb ⊢
  have hf := unixMode_fields k hb
  rcases land_S_ISUID_cases k with hu | hu <;>
  rcases land_S_ISGID_cases k with hg | hg <;>
  rcases land_S_ISVTX_cases k with hs | hs <;>
  rcases ht with ht | ht | ht | ht | ht | ht | ht <;>
  · rw [ht, hu, hg, hs] at hf
    simp +decide only [ConvertFileMode, ConvertGoMode, ht, hu, hg, hs, lor_land_distrib,
      Nat.land_assoc, goMask_perm, goMask_ModeDir, goMask_ModeSymlink, goMask_ModeDevice,
      goMask_ModeNamedPipe, goMask_ModeSocket, goMask_ModeSetuid, goMask_ModeSetgid,
      goMask_ModeCharDevice, goMask_ModeSticky, Nat.and_zero, Nat.or_zero, Nat.zero_or,
      if_true, if_false, ne_eq, not_true_eq_false, not_false_eq_true]
    refine Eq.symm (hf.trans ?_)
    simp only [Nat.or_zero, Nat.lor_assoc]
    ac_rfl

/-! ## Claims about the attribute and entry records -/

/-- C15: `ConvertAttributes` copies the inode id, size, link count, uid and gid
as they are, writes `ConvertGoMode` of the mode, and writes `ConvertTime` of the
access, modification and change times into the three timestamp pairs. -/
theorem ConvertAttributes_fields (inodeID : Nat) (inp : InodeAttributes) (out : Attr)
    (hI : inodeID < 2 ^ 64) :
    (ConvertAttributes inodeID inp out).Ino = inodeID ∧
    (ConvertAttributes inodeID inp out).Size = inp.Size ∧
    (ConvertAttributes inodeID inp out).Nlink = inp.Nlink ∧
    (ConvertAttributes inodeID inp out).Uid = inp.Uid ∧
    (ConvertAttributes inodeID inp out).Gid = inp.Gid ∧
    (ConvertAttributes inodeID inp out).Mode = ConvertGoMode inp.Mode ∧
    ((ConvertAttributes inodeID inp out).Atime, (ConvertAttributes inodeID inp out).AtimeNsec) =
      ConvertTime inp.Atime ∧
    ((ConvertAttributes inodeID inp out).Mtime, (ConvertAttributes inodeID inp out).MtimeNsec) =
      ConvertTime inp.Mtime ∧
    ((ConvertAttributes inodeID inp out).Ctime, (ConvertAttributes inodeID inp out).CtimeNsec) =
      ConvertTime inp.Ctime := by
  unfold ConvertAttributes
  simp only [Attr.SetCrtime, Nat.mod_eq_of_lt hI]
  split_ifs <;> exact ⟨rfl, rfl, rfl, rfl, rfl, rfl, rfl, rfl, rfl⟩

/-- Witness for C15: a regular file with inode id 42. -/
theorem ConvertAttributes_fields_witness :
    (ConvertAttributes 42 ⟨4096, 1, 0o644, 0, 1500000000, 2500000000, 3500000000, 0, 1000, 100⟩
      ⟨0, 0, 0, 0, 0, 0, 0, 0, 0, 0, 0, 0, 0, 0, 0, 0, 0, 0⟩).Ino = 42 ∧
    (ConvertAttributes 42 ⟨4096, 1, 0o644, 0, 1500000000, 2500000000, 3500000000, 0, 1000, 100⟩
      ⟨0, 0, 0, 0, 0, 0, 0, 0, 0, 0, 0, 0, 0, 0, 0, 0, 0, 0⟩).Size = 4096 :=
  ⟨(ConvertAttributes_fields 42
      ⟨4096, 1, 0o644, 0, 1500000000, 2500000000, 3500000000, 0, 1000, 100⟩
      ⟨0, 0, 0, 0, 0, 0, 0, 0, 0, 0, 0, 0, 0, 0, 0, 0, 0, 0⟩ (by decide)).1,
    (ConvertAttributes_fields 42
      ⟨4096, 1, 0o644, 0, 1500000000, 2500000000, 3500000000, 0, 1000, 100⟩
      ⟨0, 0, 0, 0, 0, 0, 0, 0, 0, 0, 0, 0, 0, 0, 0, 0, 0, 0⟩ (by decide)).2.1⟩

/-- C14: `ConvertChildInodeEntry` copies the child id and the generation, writes
`ConvertExpirationTime` of the entry expiration into the entry window and of the
attributes expiration into the attribute window, and fills the embedded record
with `ConvertAttributes` of the child id and attributes. Each window depends on
its own expiration only: replacing the other expiration leaves it unchanged. -/
theorem ConvertChildInodeEntry_fields (clock : Clock) (inp : ChildInodeEntry) (out : EntryOut)
    (hC : inp.Child < 2 ^ 64) (hG : inp.Generation < 2 ^ 64) :
    (ConvertChildInodeEntry clock inp out).Nodeid = inp.Child ∧
    (ConvertChildInodeEntry clock inp out).Generation = inp.Generation ∧
    ((ConvertChildInodeEntry clock inp out).EntryValid,
      (ConvertChildInodeEntry clock inp out).EntryValidNsec) =
      ConvertExpirationTime clock.entryNow inp.EntryExpiration ∧
    ((ConvertChildInodeEntry clock inp out).AttrValid,
      (ConvertChildInodeEntry clock inp out).AttrValidNsec) =
      ConvertExpirationTime clock.attrNow inp.AttributesExpiration ∧
    (ConvertChildInodeEntry clock inp out).Attr =
      ConvertAttributes inp.Child inp.Attributes out.Attr ∧
    (∀ t : Int,
      (ConvertChildInodeEntry clock { inp with AttributesExpiration := t } out).EntryValid =
        (ConvertChildInodeEntry clock inp out).EntryValid ∧
      (ConvertChildInodeEntry clock { inp with AttributesExpiration := t } out).EntryValidNsec =
        (ConvertChildInodeEntry clock inp out).EntryValidNsec) ∧
    (∀ t : Int,
      (ConvertChildInodeEntry clock { inp with EntryExpiration := t } out).AttrValid =
        (ConvertChildInodeEntry clock inp out).AttrValid ∧
      (ConvertChildInodeEntry clock { inp with EntryExpiration := t } out).AttrValidNsec =
        (ConvertChildInodeEntry clock inp out).AttrValidNsec) := by
  have hc : inp.Child % 2 ^ 64 = inp.Child := Nat.mod_eq_of_lt hC
  have hg : inp.Generation % 2 ^ 64 = inp.Generation := Nat.mod_eq_of_lt hG
  refine ⟨hc, hg, rfl, rfl, rfl, fun _ => ⟨rfl, rfl⟩, fun _ => ⟨rfl, rfl⟩⟩

/-- Witness for C14: child 5 of generation 1, the entry valid for 2 seconds and
the attributes for 1.5 seconds. -/
theorem ConvertChildInodeEntry_fields_witness :
    (ConvertChildInodeEntry ⟨0, 0⟩
      ⟨5, 1, ⟨3, 1, 0o644, 0, 0, 0, 0, 0, 0, 0⟩, 1500000000, 2000000000⟩
      ⟨0, 0, 0, 0, 0, 0, ⟨0, 0, 0, 0, 0, 0, 0, 0, 0, 0, 0, 0, 0, 0, 0, 0, 0, 0⟩⟩).Nodeid = 5 ∧
    (ConvertChildInodeEntry ⟨0, 0⟩
      ⟨5, 1, ⟨3, 1, 0o644, 0, 0, 0, 0, 0, 0, 0⟩, 1500000000, 2000000000⟩
      ⟨0, 0, 0, 0, 0, 0, ⟨0, 0, 0, 0, 0, 0, 0, 0, 0, 0, 0, 0, 0, 0, 0, 0, 0, 0⟩⟩).Generation
      = 1 :=
  ⟨(ConvertChildInodeEntry_fields ⟨0, 0⟩
      ⟨5, 1, ⟨3, 1, 0o644, 0, 0, 0, 0, 0, 0, 0⟩, 1500000000, 2000000000⟩
      ⟨0, 0, 0, 0, 0, 0, ⟨0, 0, 0, 0, 0, 0, 0, 0, 0, 0, 0, 0, 0, 0, 0, 0, 0, 0⟩⟩
      (by decide) (by decide)).1,
    (ConvertChildInodeEntry_fields ⟨0, 0⟩
      ⟨5, 1, ⟨3, 1, 0o644, 0, 0, 0, 0, 0, 0, 0⟩, 1500000000, 2000000000⟩
      ⟨0, 0, 0, 0, 0, 0, ⟨0, 0, 0, 0, 0, 0, 0, 0, 0, 0, 0, 0, 0, 0, 0, 0, 0, 0⟩⟩
      (by decide) (by decide)).2.1⟩

/-! ## Claims about alignment and the bytes left alone -/

/-- The required length of a plain record is a multiple of 8. -/
theorem direntLen_mod (len : Nat) : (24 + len + (8 - len % 8) % 8) % 8 = 0 := by
  omega

/-- C16: the byte count `WriteDirent` returns is a multiple of 8, and so is the
one `WriteDirentPlus` returns, the size of the entry record being a multiple
of 8. -/
theorem WriteDirentPlus_aligned (L : EntryOutLayout) (clock : Clock) (buf : List Nat)
    (e : Option ChildInodeEntry) (d : Dirent)
    (hL : e ≠ none → (∀ o, (L.store o).length = L.size) ∧ L.size % 8 = 0) :
    (WriteDirent L clock buf d).1 % 8 = 0 ∧ (WriteDirentPlus L clock buf e d).1 % 8 = 0 := by
  have hm := direntLen_mod d.Name.length
  have hplain : (WriteDirentPlus L clock buf none d).1 % 8 = 0 := by
    by_cases h : 24 + d.Name.length + (8 - d.Name.length % 8) % 8 ≤ buf.length
    · rw [WriteDirentPlus_none_fits L clock buf d h]
      exact hm
    · rw [WriteDirentPlus_no_room L clock buf none d (by simpa using h)]
      rfl
  refine ⟨hplain, ?_⟩
  cases e with
  | none => exact hplain
  | some e =>
    obtain ⟨hs, h8⟩ := hL (by simp)
    by_cases h : L.size + 24 + d.Name.length + (8 - d.Name.length % 8) % 8 ≤ buf.length
    · rw [WriteDirentPlus_some_fits L clock buf e d hs h]
      simp only
      omega
    · rw [WriteDirentPlus_no_room L clock buf (some e) d
        (by simp only [Option.isSome_some, if_true]; omega)]
      rfl

/-- Witness for C16: 32 bytes in plain mode and 160 bytes with an entry. -/
theorem WriteDirentPlus_aligned_witness :
    (WriteDirent linuxEntryOut ⟨0, 0⟩ (List.replicate 160 7)
      ⟨100, 5, [97, 98, 99], DT_File⟩).1 % 8 = 0 ∧
    (WriteDirentPlus linuxEntryOut ⟨0, 0⟩ (List.replicate 160 7)
      (some ⟨5, 1, ⟨3, 1, 0o644, 0, 0, 0, 0, 0, 0, 0⟩, 1500000000, 2000000000⟩)
      ⟨100, 5, [97, 98, 99], DT_File⟩).1 % 8 = 0 :=
  WriteDirentPlus_aligned linuxEntryOut ⟨0, 0⟩ (List.replicate 160 7)
    (some ⟨5, 1, ⟨3, 1, 0o644, 0, 0, 0, 0, 0, 0, 0⟩, 1500000000, 2000000000⟩)
    ⟨100, 5, [97, 98, 99], DT_File⟩ (fun _ => ⟨linuxEntryOut_store_length, by decide⟩)

/-- The buffer `WriteDirentPlus` hands back, from the returned count on, is the
buffer it was given. -/
theorem WriteDirentPlus_drop (L : EntryOutLayout) (clock : Clock) (buf : List Nat)
    (e : Option ChildInodeEntry) (d : Dirent)
    (hL : e ≠ none → ∀ o, (L.store o).length = L.size) :
    (WriteDirentPlus L clock buf e d).2.drop (WriteDirentPlus L clock buf e d).1 =
      buf.drop (WriteDirentPlus L clock buf e d).1 := by
  cases e with
  | none =>
    by_cases h : 24 + d.Name.length + (8 - d.Name.length % 8) % 8 ≤ buf.length
    · rw [WriteDirentPlus_none_fits L clock buf d h]
      simp only
      apply List.drop_left'
      simp [direntHeader_length]; omega
    · rw [WriteDirentPlus_no_room L clock buf none d (by simpa using h)]
  | some e =>
    have hs := hL (by simp)
    by_cases h : L.size + 24 + d.Name.length + (8 - d.Name.length % 8) % 8 ≤ buf.length
    · rw [WriteDirentPlus_some_fits L clock buf e d hs h]
      simp only
      apply List.drop_left'
      simp [direntHeader_length, hs]; omega
    · rw [WriteDirentPlus_no_room L clock buf (some e) d
        (by simp only [Option.isSome_some, if_true]; omega)]

/-- C17: with `n` the count `WriteDirentPlus` returns, every byte of the
buffer at an index from `n` on is after the call what it was before, and the
buffer keeps its length. -/
theorem WriteDirentPlus_frame (L : EntryOutLayout) (clock : Clock) (buf : List Nat)
    (e : Option ChildInodeEntry) (d : Dirent)
    (hL : e ≠ none → ∀ o, (L.store o).length = L.size) :
    (∀ i, (WriteDirentPlus L clock buf e d).1 ≤ i →
      (WriteDirentPlus L clock buf e d).2[i]? = buf[i]?) ∧
    (WriteDirentPlus L clock buf e d).2.drop (WriteDirentPlus L clock buf e d).1 =
      buf.drop (WriteDirentPlus L clock buf e d).1 := by
  have hd := WriteDirentPlus_drop L clock buf e d hL
  refine ⟨?_, hd⟩
  intro i hi
  have h := congrArg (fun l : List Nat => l[i - (WriteDirentPlus L clock buf e d).1]?) hd
  simp only [List.getElem?_drop] at h
  rwa [Nat.add_sub_cancel' hi] at h

/-- Witness for C17: byte 159 of a 200-byte buffer filled with 7 is still 7
after an entry of 160 bytes has been written. -/
theorem WriteDirentPlus_frame_witness :
    (WriteDirentPlus linuxEntryOut ⟨0, 0⟩ (List.replicate 200 7)
      (some ⟨5, 1, ⟨3, 1, 0o644, 0, 0, 0, 0, 0, 0, 0⟩, 1500000000, 2000000000⟩)
      ⟨100, 5, [97, 98, 99], DT_File⟩).2.drop
      (WriteDirentPlus linuxEntryOut ⟨0, 0⟩ (List.replicate 200 7)
      (some ⟨5, 1, ⟨3, 1, 0o644, 0, 0, 0, 0, 0, 0, 0⟩, 1500000000, 2000000000⟩)
      ⟨100, 5, [97, 98, 99], DT_File⟩).1 =
    (List.replicate 200 7).drop
      (WriteDirentPlus linuxEntryOut ⟨0, 0⟩ (List.replicate 200 7)
      (some ⟨5, 1, ⟨3, 1, 0o644, 0, 0, 0, 0, 0, 0, 0⟩, 1500000000, 2000000000⟩)
      ⟨100, 5, [97, 98, 99], DT_File⟩).1 :=
  (WriteDirentPlus_frame linuxEntryOut ⟨0, 0⟩ (List.replicate 200 7)
    (some ⟨5, 1, ⟨3, 1, 0o644, 0, 0, 0, 0, 0, 0, 0⟩, 1500000000, 2000000000⟩)
    ⟨100, 5, [97, 98, 99], DT_File⟩ (fun _ => linuxEntryOut_store_length)).2

/-! ## The entry record and the previous content of the buffer -/

/-- `ConvertChildInodeEntry` assigns neither the block size nor the padding
word of the attribute record: they stay what the record held before. -/
theorem ConvertChildInodeEntry_unassigned (clock : Clock) (inp : ChildInodeEntry)
    (out : EntryOut) :
    (ConvertChildInodeEntry clock inp out).Attr.Blksize = out.Attr.Blksize ∧
    (ConvertChildInodeEntry clock inp out).Attr.padding = out.Attr.padding := by
  unfold ConvertChildInodeEntry ConvertAttributes
  simp only [Attr.SetCrtime]
  split_ifs <;> exact ⟨rfl, rfl⟩

set_option maxRecDepth 20000 in
/-- C18: the record written with an entry should not depend on what the buffer
held before. For a regular file written into two 160-byte buffers, one filled
with 0 and one with 255, the returned count is 160 both times, but bytes 116 to
127 of the record (device number, block size and padding of the 128-byte
layout) are 0 in the first and 255 in the second: the source assigns the
fields of the record in place and leaves these three as they were. -/
theorem WriteDirentPlus_keeps_old_bytes :
    (WriteDirentPlus linuxEntryOut ⟨0, 0⟩ (List.replicate 160 0)
      (some ⟨5, 1, ⟨3, 1, 0o644, 0, 0, 0, 0, 0, 0, 0⟩, 1500000000, 2000000000⟩)
      ⟨100, 5, [97, 98, 99], DT_File⟩).1 = 160 ∧
    (WriteDirentPlus linuxEntryOut ⟨0, 0⟩ (List.replicate 160 255)
      (some ⟨5, 1, ⟨3, 1, 0o644, 0, 0, 0, 0, 0, 0, 0⟩, 1500000000, 2000000000⟩)
      ⟨100, 5, [97, 98, 99], DT_File⟩).1 = 160 ∧
    ((WriteDirentPlus linuxEntryOut ⟨0, 0⟩ (List.replicate 160 0)
      (some ⟨5, 1, ⟨3, 1, 0o644, 0, 0, 0, 0, 0, 0, 0⟩, 1500000000, 2000000000⟩)
      ⟨100, 5, [97, 98, 99], DT_File⟩).2.drop 116).take 12 = List.replicate 12 0 ∧
    ((WriteDirentPlus linuxEntryOut ⟨0, 0⟩ (List.replicate 160 255)
      (some ⟨5, 1, ⟨3, 1, 0o644, 0, 0, 0, 0, 0, 0, 0⟩, 1500000000, 2000000000⟩)
      ⟨100, 5, [97, 98, 99], DT_File⟩).2.drop 116).take 12 = List.replicate 12 255 := by
  decide

end Fuse
